import Mathlib

/-!
BME280 driver (`bme280.c`): compensation arithmetic and raw reads.

A shallow embedding of the driver's fixed-point routines.  C integers are
modelled as `Int` values kept inside their two's-complement range by an
explicit wrap after every operation; `>>` on a signed operand is the
arithmetic shift (floor division by a power of two) and `/` on signed
operands truncates toward zero.
-/

set_option autoImplicit false

namespace BME280

/-! ## Machine integers -/

/-- Two's-complement reduction of an integer to `int8_t`. -/
def wrap8 (x : Int) : Int := (x + 128) % 256 - 128

/-- Two's-complement reduction of an integer to `int16_t`. -/
def wrap16 (x : Int) : Int := (x + 32768) % 65536 - 32768

/-- Two's-complement reduction of an integer to `int32_t`. -/
def wrap32 (x : Int) : Int := (x + 2147483648) % 4294967296 - 2147483648

/-- Two's-complement reduction of an integer to `int64_t`. -/
def wrap64 (x : Int) : Int :=
  (x + 9223372036854775808) % 18446744073709551616 - 9223372036854775808

/-- Reduction of an integer to `uint32_t`. -/
def toU32 (x : Int) : Int := x % 4294967296

/-- Range of `int32_t`. -/
def inI32 (x : Int) : Prop := -2147483648 ≤ x ∧ x ≤ 2147483647

/-- Range of `int64_t`. -/
def inI64 (x : Int) : Prop := -9223372036854775808 ≤ x ∧ x ≤ 9223372036854775807

instance (x : Int) : Decidable (inI32 x) := by unfold inI32; infer_instance

instance (x : Int) : Decidable (inI64 x) := by unfold inI64; infer_instance

/-- The `int32_t` operators of C, wrapping on overflow. -/
def add32 (a b : Int) : Int := wrap32 (a + b)

def sub32 (a b : Int) : Int := wrap32 (a - b)

def mul32 (a b : Int) : Int := wrap32 (a * b)

def shl32 (a : Int) (k : Nat) : Int := wrap32 (a * 2 ^ k)

/-- Arithmetic right shift: floor division by `2 ^ k`. -/
def sar (a : Int) (k : Nat) : Int := a / 2 ^ k

/-- The `int64_t` operators of C, wrapping on overflow. -/
def add64 (a b : Int) : Int := wrap64 (a + b)

def sub64 (a b : Int) : Int := wrap64 (a - b)

def mul64 (a b : Int) : Int := wrap64 (a * b)

def shl64 (a : Int) (k : Nat) : Int := wrap64 (a * 2 ^ k)

/-- Signed 64-bit division: truncation toward zero; a zero divisor is a fault
(`none`). -/
def div64 (a b : Int) : Option Int :=
  if b = 0 then none else some (wrap64 (Int.tdiv a b))

/-- An operation result that must fit `int32_t`: `none` when it does not. -/
def chk32 (x : Int) : Option Int := if inI32 x then some x else none

/-- An operation result that must fit `int64_t`: `none` when it does not. -/
def chk64 (x : Int) : Option Int := if inI64 x then some x else none

/-- Sequencing of checked operations: continue with the value, or stop at
`none`. -/
@[noinline]
def andThen {α : Type} (x : Option Int) (f : Int → Option α) : Option α := x.bind f

/-! ## Driver state -/

/-- The calibration block `cal_param` (fields of the register overlay). -/
structure Calibration where
  dig_T1 : Int
  dig_T2 : Int
  dig_T3 : Int
  dig_P1 : Int
  dig_P2 : Int
  dig_P3 : Int
  dig_P4 : Int
  dig_P5 : Int
  dig_P6 : Int
  dig_P7 : Int
  dig_P8 : Int
  dig_P9 : Int
  dig_H1 : Int
  dig_H2 : Int
  dig_H3 : Int
  dig_H4 : Int
  dig_H5 : Int
  dig_H6 : Int
  deriving DecidableEq

/-- The two file-scope objects of the driver: `cal_param` and `t_fine`. -/
structure Driver where
  cal_param : Calibration
  t_fine : Int
  deriving DecidableEq

/-! ## Temperature -/

/-- First assignment to `t_fine` in `BME280_CalcT` (line 322). -/
def CalcT_line322 (c : Calibration) (UT : Int) : Int :=
  sar (mul32 (sub32 (sar UT 3) (shl32 (wrap32 c.dig_T1) 1)) (wrap32 c.dig_T2)) 11

/-- The value added to `t_fine` in `BME280_CalcT` (line 323). -/
def CalcT_line323 (c : Calibration) (UT : Int) : Int :=
  sar (mul32 (sar (mul32 (sub32 (sar UT 4) (wrap32 c.dig_T1))
                         (sub32 (sar UT 4) (wrap32 c.dig_T1))) 12)
             (wrap32 c.dig_T3)) 14

/-- `BME280_CalcT`: the returned temperature and the driver with the new
`t_fine`. -/
def BME280_CalcT (s : Driver) (UT : Int) : Int × Driver :=
  let t_fine := CalcT_line322 s.cal_param UT
  let t_fine := add32 t_fine (CalcT_line323 s.cal_param UT)
  (sar (add32 (mul32 t_fine 5) 128) 8, { s with t_fine := t_fine })

/-- `BME280_CalcT` with every `int32_t` operation checked: `none` as soon as an
intermediate value leaves the `int32_t` range, otherwise the returned
temperature and the new `t_fine`. -/
def BME280_CalcT_checked (c : Calibration) (UT : Int) : Option (Int × Int) :=
  andThen (chk32 (wrap32 c.dig_T1 * 2 ^ 1)) fun t1x2 =>
  andThen (chk32 (sar UT 3 - t1x2)) fun a =>
  andThen (chk32 (a * wrap32 c.dig_T2)) fun p1 =>
  andThen (chk32 (sar UT 4 - wrap32 c.dig_T1)) fun d =>
  andThen (chk32 (d * d)) fun p2 =>
  andThen (chk32 (sar p2 12 * wrap32 c.dig_T3)) fun p3 =>
  andThen (chk32 (sar p1 11 + sar p3 14)) fun t_fine =>
  andThen (chk32 (t_fine * 5)) fun f5 =>
  andThen (chk32 (f5 + 128)) fun r =>
  some (sar r 8, t_fine)

/-- The temperature formula over unbounded integers: fine temperature and
returned temperature. -/
def CalcT_exact (T1 T2 T3 UT : Int) : Int × Int :=
  let fine := ((UT / 8 - T1 * 2) * T2) / 2048
    + ((((UT / 16 - T1) * (UT / 16 - T1)) / 4096) * T3) / 16384
  ((fine * 5 + 128) / 256, fine)

/-! ## Pressure -/

/-- The accumulator `v2` of `BME280_CalcP` after line 342. -/
def CalcP_v2 (s : Driver) : Int :=
  let v1 := sub64 (wrap64 s.t_fine) 128000
  let v2 := mul64 (mul64 v1 v1) (wrap64 s.cal_param.dig_P6)
  let v2 := add64 v2 (shl64 (mul64 v1 (wrap64 s.cal_param.dig_P5)) 17)
  add64 v2 (shl64 (wrap64 s.cal_param.dig_P4) 35)

/-- The base term `v1` of `BME280_CalcP` after line 344. -/
def CalcP_v1 (s : Driver) : Int :=
  let v1 := sub64 (wrap64 s.t_fine) 128000
  let v1 := add64 (sar (mul64 (mul64 v1 v1) (wrap64 s.cal_param.dig_P3)) 8)
                  (shl64 (mul64 v1 (wrap64 s.cal_param.dig_P2)) 12)
  sar (mul64 (add64 (shl64 1 47) v1) (wrap64 s.cal_param.dig_P1)) 33

/-- `BME280_CalcP`: the returned `uint32_t`; `none` would be a division
fault.  Line 346, `p = 1048576 - UP`, subtracts two `int` operands (32 bits) and
widens the result. -/
def BME280_CalcP (s : Driver) (UP : Int) : Option Int :=
  let v2 := CalcP_v2 s
  let v1 := CalcP_v1 s
  if v1 = 0 then some 0
  else
    let p := sub32 1048576 UP
    (div64 (mul64 (sub64 (shl64 p 31) v2) 3125) v1).bind fun p =>
      let v1 := sar (mul64 (mul64 (wrap64 s.cal_param.dig_P9) (sar p 13)) (sar p 13)) 25
      let v2 := sar (mul64 (wrap64 s.cal_param.dig_P8) p) 19
      let p := add64 (sar (add64 (add64 p v1) v2) 8) (shl64 (wrap64 s.cal_param.dig_P7) 4)
      some (toU32 p)

/-- Lines 346 to 352 of `BME280_CalcP`, the path past the guard of line 345:
the value returned when `v1` is not 0. -/
def CalcP_lines346_352 (s : Driver) (UP : Int) : Int :=
  let p := sub32 1048576 UP
  let p := wrap64 (Int.tdiv (mul64 (sub64 (shl64 p 31) (CalcP_v2 s)) 3125) (CalcP_v1 s))
  let v1 := sar (mul64 (mul64 (wrap64 s.cal_param.dig_P9) (sar p 13)) (sar p 13)) 25
  let v2 := sar (mul64 (wrap64 s.cal_param.dig_P8) p) 19
  let p := add64 (sar (add64 (add64 p v1) v2) 8) (shl64 (wrap64 s.cal_param.dig_P7) 4)
  toU32 p

/-! ## Humidity -/

/-- The value of `vx1` in `BME280_CalcH` after line 369, before the clamp. -/
def CalcH_vx1 (s : Driver) (UH : Int) : Int :=
  let c := s.cal_param
  let vx1 := sub32 s.t_fine 76800
  let vx1 := mul32
    (sar (add32 (sub32 (sub32 (shl32 UH 14) (shl32 (wrap32 c.dig_H4) 20))
                       (mul32 (wrap32 c.dig_H5) vx1)) 16384) 15)
    (sar (add32 (mul32 (add32 (sar (mul32 (sar (mul32 vx1 (wrap32 c.dig_H6)) 10)
                                          (add32 (sar (mul32 vx1 (wrap32 c.dig_H3)) 11) 32768)) 10)
                              2097152)
                       (wrap32 c.dig_H2)) 8192) 14)
  sub32 vx1 (sar (mul32 (sar (mul32 (sar vx1 15) (sar vx1 15)) 7) (wrap32 c.dig_H1)) 4)

/-- `BME280_CalcH`: clamp of `vx1` (lines 370, 371) and the final shift. -/
def BME280_CalcH (s : Driver) (UH : Int) : Int :=
  let vx1 := CalcH_vx1 s UH
  let vx1 := if vx1 < 0 then 0 else vx1
  let vx1 := if vx1 > 419430400 then 419430400 else vx1
  toU32 (sar vx1 12)

/-! ## Pa to mmHg -/

/-- Modelled from the spec: the constant `BME_MMHG_Q0_20` of the header
`bme280.h`, "a precomputed Q0.20 approximation of 0.00750061683", that is
`round (0.00750061683 * 2 ^ 20) = 7865`. -/
def BME_MMHG_Q0_20 : Nat := 7865

/-- `BME280_Pa_to_mmHg` for a given Q0.20 factor `k`.  `p_mmHg` is `uint64_t`,
the casts and the arithmetic of the return expression are `uint32_t`. -/
def Pa_to_mmHg_with (k : Nat) (PQ24_8 : Nat) : Nat :=
  let p_mmHg := ((PQ24_8 % 4294967296) * k) % 18446744073709551616
  let ipart := (((p_mmHg / 2 ^ 28) % 4294967296) * 1000) % 4294967296
  let frac := (((p_mmHg % 4294967296) * 2 ^ 4) % 4294967296) / 2 ^ 19
  let fpart := ((frac * 122070) % 4294967296) / 1000000
  (ipart + fpart) % 4294967296

/-- `BME280_Pa_to_mmHg` with the header's constant. -/
def BME280_Pa_to_mmHg (PQ24_8 : Nat) : Nat := Pa_to_mmHg_with BME_MMHG_Q0_20 PQ24_8

/-! ## Bus and register access -/

/-- Modelled from the spec: the result type `BME280_RESULT` of the header
`bme280.h`, "success/failure per call", with the two values the source
returns. -/
inductive BME280_RESULT where
  | BME280_ERROR
  | BME280_SUCCESS
  deriving DecidableEq

open BME280_RESULT

/-- Modelled from the spec: the bus collaborator of `i2c.h`,
`write(port, bytes, length, deviceAddress, stopCondition) -> success/failure`
and `read(port, buffer, length, deviceAddress) -> success/failure`, over an
abstract bus state.  The status `true` is `I2C_SUCCESS` (nonzero), `false` is
failure (zero); the port and the device address are fixed.  `I2Cx_Write`
takes the bytes and the stop flag; `I2Cx_Read` takes the length and yields the
bytes the bus delivered into the buffer. -/
structure I2C (σ : Type) where
  I2Cx_Write : σ → List Nat → Bool → Bool × σ
  I2Cx_Read : σ → Nat → (Bool × List Nat) × σ

/-- Register addresses of `bme280.h` used by the calibration and raw reads. -/
structure Header where
  BME280_REG_CALIB00 : Nat
  BME280_REG_CALIB25 : Nat
  BME280_REG_CALIB26 : Nat
  BME280_REG_PRESS_MSB : Nat
  BME280_REG_TEMP_MSB : Nat
  BME280_REG_HUM_MSB : Nat

/-- `I2C_NOSTOP` and `I2C_STOP` as the stop flag of a write. -/
def I2C_NOSTOP : Bool := false

def I2C_STOP : Bool := true

/-- Contents of a byte buffer after a read of `n` bytes: the delivered bytes
replace the first `n` positions, positions the bus did not fill keep their
previous content. -/
def storeBytes (buf data : List Nat) (n : Nat) : List Nat :=
  (List.range buf.length).map fun i =>
    if i < n then (data.getD i (buf.getD i 0)) % 256 else buf.getD i 0

/-- Element `i` of a byte buffer. -/
def byteAt (buf : List Nat) (i : Nat) : Nat := buf.getD i 0

/-- `BME280_WriteReg`. -/
def BME280_WriteReg {σ : Type} (bus : I2C σ) (b : σ) (reg value : Nat) : σ :=
  (bus.I2Cx_Write b [reg, value] I2C_STOP).2

/-- `BME280_ReadReg`: both bus statuses are dropped; `value` starts at 0. -/
def BME280_ReadReg {σ : Type} (bus : I2C σ) (b : σ) (reg : Nat) : Nat × σ :=
  let value := [0]
  let w := bus.I2Cx_Write b [reg] I2C_NOSTOP
  let r := bus.I2Cx_Read w.2 1
  (byteAt (storeBytes value r.1.2 1) 0, r.2)

/-- Little-endian bytes of a 16-bit field. -/
def le16 (x : Int) : List Nat := [(x % 256).toNat, (x / 256 % 256).toNat]

/-- Unsigned 16-bit field at offset `i` of a little-endian byte image. -/
def u16At (m : List Nat) (i : Nat) : Int := (byteAt m i + 256 * byteAt m (i + 1) : Nat)

/-- Signed 16-bit field at offset `i` of a little-endian byte image. -/
def s16At (m : List Nat) (i : Nat) : Int := wrap16 (u16At m i)

/-- Modelled from the spec: the first 24 bytes of the `cal_param` overlay
declared in `bme280.h`, "temperature + pressure constants": `dig_T1`
(unsigned 16-bit), `dig_T2`, `dig_T3`, `dig_P1` (unsigned 16-bit),
`dig_P2..dig_P9`, in register order, little-endian. -/
def calImage (c : Calibration) : List Nat :=
  le16 c.dig_T1 ++ le16 c.dig_T2 ++ le16 c.dig_T3 ++ le16 c.dig_P1 ++ le16 c.dig_P2
    ++ le16 c.dig_P3 ++ le16 c.dig_P4 ++ le16 c.dig_P5 ++ le16 c.dig_P6 ++ le16 c.dig_P7
    ++ le16 c.dig_P8 ++ le16 c.dig_P9

/-- The calibration block whose first 24 bytes are the image `m`. -/
def calOfImage (c : Calibration) (m : List Nat) : Calibration :=
  { c with
    dig_T1 := u16At m 0, dig_T2 := s16At m 2, dig_T3 := s16At m 4,
    dig_P1 := u16At m 6, dig_P2 := s16At m 8, dig_P3 := s16At m 10,
    dig_P4 := s16At m 12, dig_P5 := s16At m 14, dig_P6 := s16At m 16,
    dig_P7 := s16At m 18, dig_P8 := s16At m 20, dig_P9 := s16At m 22 }

/-- `BME280_Read_Calibration`: result, driver state and bus state. -/
def BME280_Read_Calibration {σ : Type} (H : Header) (bus : I2C σ) (s : Driver) (b : σ) :
    BME280_RESULT × Driver × σ :=
  let buf := [H.BME280_REG_CALIB00, 0, 0, 0, 0, 0, 0]
  let w1 := bus.I2Cx_Write b [byteAt buf 0] I2C_NOSTOP
  if w1.1 ≠ true then (BME280_ERROR, s, w1.2) else
  let r1 := bus.I2Cx_Read w1.2 24
  let cal := calOfImage s.cal_param (storeBytes (calImage s.cal_param) r1.1.2 24)
  if r1.1.1 ≠ true then (BME280_ERROR, { s with cal_param := cal }, r1.2) else
  let h1 := BME280_ReadReg bus r1.2 H.BME280_REG_CALIB25
  let cal := { cal with dig_H1 := (h1.1 : Int) }
  let buf := buf.set 0 H.BME280_REG_CALIB26
  let w2 := bus.I2Cx_Write h1.2 [byteAt buf 0] I2C_NOSTOP
  if w2.1 ≠ true then (BME280_ERROR, { s with cal_param := cal }, w2.2) else
  let r2 := bus.I2Cx_Read w2.2 7
  let buf := storeBytes buf r2.1.2 7
  if r2.1.1 ≠ true then (BME280_ERROR, { s with cal_param := cal }, r2.2) else
  let cal := { cal with
    dig_H2 := wrap16 (Int.lor (wrap8 (byteAt buf 1) * 2 ^ 8) (byteAt buf 0))
    dig_H3 := (byteAt buf 2 : Int)
    dig_H4 := wrap16 (Int.lor (wrap8 (byteAt buf 3) * 2 ^ 4) ((byteAt buf 4 &&& 0x0f : Nat) : Int))
    dig_H5 := wrap16 (Int.lor (wrap8 (byteAt buf 5) * 2 ^ 4) ((byteAt buf 4 >>> 4 : Nat) : Int))
    dig_H6 := wrap8 (byteAt buf 6) }
  (BME280_SUCCESS, { s with cal_param := cal }, r2.2)

/-- Raw 20-bit value from three buffer bytes starting at `i`:
`(buf[i] << 12) | (buf[i+1] << 4) | (buf[i+2] >> 4)`, cast to `int32_t`. -/
def raw20 (buf : List Nat) (i : Nat) : Int :=
  wrap32 (((byteAt buf i <<< 12) ||| (byteAt buf (i + 1) <<< 4) ||| (byteAt buf (i + 2) >>> 4) : Nat) : Int)

/-- Raw 16-bit value from two buffer bytes starting at `i`:
`(buf[i] << 8) | buf[i+1]`, cast to `int32_t`. -/
def raw16 (buf : List Nat) (i : Nat) : Int :=
  wrap32 (((byteAt buf i <<< 8) ||| byteAt buf (i + 1) : Nat) : Int)

/-- `BME280_Read_UP`: result, `*UP` and bus state. -/
def BME280_Read_UP {σ : Type} (H : Header) (bus : I2C σ) (b : σ) : BME280_RESULT × Int × σ :=
  let UP : Int := 0
  let buf := [H.BME280_REG_PRESS_MSB, 0, 0]
  let w := bus.I2Cx_Write b [byteAt buf 0] I2C_NOSTOP
  if w.1 = false then (BME280_ERROR, UP, w.2) else
  let r := bus.I2Cx_Read w.2 3
  let buf := storeBytes buf r.1.2 3
  if r.1.1 then (BME280_SUCCESS, raw20 buf 0, r.2)
  else (BME280_ERROR, UP, r.2)

/-- `BME280_Read_UT`: result, `*UT` and bus state. -/
def BME280_Read_UT {σ : Type} (H : Header) (bus : I2C σ) (b : σ) : BME280_RESULT × Int × σ :=
  let UT : Int := 0
  let buf := [H.BME280_REG_TEMP_MSB, 0, 0]
  let w := bus.I2Cx_Write b [byteAt buf 0] I2C_NOSTOP
  if w.1 = false then (BME280_ERROR, UT, w.2) else
  let r := bus.I2Cx_Read w.2 3
  let buf := storeBytes buf r.1.2 3
  if r.1.1 then (BME280_SUCCESS, raw20 buf 0, r.2)
  else (BME280_ERROR, UT, r.2)

/-- `BME280_Read_UH`: result, `*UH` and bus state. -/
def BME280_Read_UH {σ : Type} (H : Header) (bus : I2C σ) (b : σ) : BME280_RESULT × Int × σ :=
  let UH : Int := 0
  let buf := [H.BME280_REG_HUM_MSB, 0]
  let w := bus.I2Cx_Write b [byteAt buf 0] I2C_NOSTOP
  if w.1 = false then (BME280_ERROR, UH, w.2) else
  let r := bus.I2Cx_Read w.2 2
  let buf := storeBytes buf r.1.2 2
  if r.1.1 then (BME280_SUCCESS, raw16 buf 0, r.2)
  else (BME280_ERROR, UH, r.2)

/-- The three outputs of `BME280_Read_UTPH`. -/
structure RawUTPH where
  UT : Int
  UP : Int
  UH : Int
  deriving DecidableEq

/-- `BME280_Read_UTPH`: result, `*UT`, `*UP`, `*UH` and bus state. -/
def BME280_Read_UTPH {σ : Type} (H : Header) (bus : I2C σ) (b : σ) :
    BME280_RESULT × RawUTPH × σ :=
  let out : RawUTPH := { UT := 0, UP := 0, UH := 0 }
  let buf := [H.BME280_REG_PRESS_MSB, 0, 0, 0, 0, 0, 0, 0]
  let w := bus.I2Cx_Write b [byteAt buf 0] I2C_NOSTOP
  if w.1 = false then (BME280_ERROR, out, w.2) else
  let r := bus.I2Cx_Read w.2 8
  let buf := storeBytes buf r.1.2 8
  if r.1.1 then
    (BME280_SUCCESS, { UP := raw20 buf 0, UT := raw20 buf 3, UH := raw16 buf 6 }, r.2)
  else (BME280_ERROR, out, r.2)

/-- A scripted bus: the state is the list of replies still to come, one per bus
operation (status, and for a read the bytes delivered); when the script is
exhausted every operation times out. -/
def scriptBus : I2C (List (Bool × List Nat)) where
  I2Cx_Write := fun b _ _ =>
    match b with
    | [] => (false, [])
    | r :: rest => (r.1, rest)
  I2Cx_Read := fun b _ =>
    match b with
    | [] => ((false, []), [])
    | r :: rest => ((r.1, r.2), rest)

/-- Register addresses of the BME280 register map. -/
def bme280Header : Header where
  BME280_REG_CALIB00 := 0x88
  BME280_REG_CALIB25 := 0xA1
  BME280_REG_CALIB26 := 0xE1
  BME280_REG_PRESS_MSB := 0xF7
  BME280_REG_TEMP_MSB := 0xFA
  BME280_REG_HUM_MSB := 0xFD


/-! ## Fraction of the mmHg conversion -/

/-- The sub-expression `(XXX * 122070) / 1000000` of line 393 in `uint32_t`
arithmetic, applied to the 13-bit fraction `x`. -/
def mmHgMilli (x : Nat) : Nat := ((x * 122070) % 4294967296) / 1000000

/-! ## Pressure and humidity statement by statement -/

/-- The objects `BME280_CalcP` can touch: the file-scope `cal_param` and
`t_fine`, and its locals `v1`, `v2`, `p`. -/
structure CalcPStore where
  cal_param : Calibration
  t_fine : Int
  v1 : Int
  v2 : Int
  p : Int

/-- `BME280_CalcP` executed statement by statement on a store: every assignment
of lines 339 to 350 updates the object on its left-hand side.  `l0` is the
indeterminate initial value of the locals.  The result is the returned value
with the file-scope objects as they are at the `return`; `none` would be a
division fault. -/
def BME280_CalcP_exec (s : Driver) (UP l0 : Int) : Option (Int × Driver) :=
  let m : CalcPStore := ⟨s.cal_param, s.t_fine, l0, l0, l0⟩
  let m := { m with v1 := sub64 (wrap64 m.t_fine) 128000 }
  let m := { m with v2 := mul64 (mul64 m.v1 m.v1) (wrap64 m.cal_param.dig_P6) }
  let m := { m with v2 := add64 m.v2 (shl64 (mul64 m.v1 (wrap64 m.cal_param.dig_P5)) 17) }
  let m := { m with v2 := add64 m.v2 (shl64 (wrap64 m.cal_param.dig_P4) 35) }
  let m := { m with v1 := (
      add64 (sar (mul64 (mul64 m.v1 m.v1) (wrap64 m.cal_param.dig_P3)) 8)
            (shl64 (mul64 m.v1 (wrap64 m.cal_param.dig_P2)) 12)) }
  let m := { m with v1 := sar (mul64 (add64 (shl64 1 47) m.v1) (wrap64 m.cal_param.dig_P1)) 33 }
  if m.v1 = 0 then some (0, ⟨m.cal_param, m.t_fine⟩)
  else
    let m := { m with p := sub32 1048576 UP }
    (div64 (mul64 (sub64 (shl64 m.p 31) m.v2) 3125) m.v1).bind fun q =>
      let m := { m with p := q }
      let m := { m with v1 := (
          sar (mul64 (mul64 (wrap64 m.cal_param.dig_P9) (sar m.p 13)) (sar m.p 13)) 25) }
      let m := { m with v2 := sar (mul64 (wrap64 m.cal_param.dig_P8) m.p) 19 }
      let m := { m with p := (
          add64 (sar (add64 (add64 m.p m.v1) m.v2) 8) (shl64 (wrap64 m.cal_param.dig_P7) 4)) }
      some (toU32 m.p, ⟨m.cal_param, m.t_fine⟩)

/-- The objects `BME280_CalcH` can touch: the file-scope `cal_param` and
`t_fine`, and its local `vx1`. -/
structure CalcHStore where
  cal_param : Calibration
  t_fine : Int
  vx1 : Int

/-- `BME280_CalcH` executed statement by statement on a store: every assignment
of lines 365 to 371 updates the object on its left-hand side.  `l0` is the
indeterminate initial value of the local.  The result is the returned value
with the file-scope objects as they are at the `return`. -/
def BME280_CalcH_exec (s : Driver) (UH l0 : Int) : Int × Driver :=
  let m : CalcHStore := ⟨s.cal_param, s.t_fine, l0⟩
  let m := { m with vx1 := sub32 m.t_fine 76800 }
  let m := { m with vx1 := (
      mul32
        (sar (add32 (sub32 (sub32 (shl32 UH 14) (shl32 (wrap32 m.cal_param.dig_H4) 20))
                           (mul32 (wrap32 m.cal_param.dig_H5) m.vx1)) 16384) 15)
        (sar (add32 (mul32 (add32 (sar (mul32 (sar (mul32 m.vx1 (wrap32 m.cal_param.dig_H6)) 10)
                                              (add32 (sar (mul32 m.vx1
                                                            (wrap32 m.cal_param.dig_H3)) 11)
                                                     32768)) 10)
                                  2097152)
                           (wrap32 m.cal_param.dig_H2)) 8192) 14)) }
  let m := { m with vx1 := (
      sub32 m.vx1
        (sar (mul32 (sar (mul32 (sar m.vx1 15) (sar m.vx1 15)) 7)
                    (wrap32 m.cal_param.dig_H1)) 4)) }
  let m := { m with vx1 := if m.vx1 < 0 then 0 else m.vx1 }
  let m := { m with vx1 := if m.vx1 > 419430400 then 419430400 else m.vx1 }
  (toU32 (sar m.vx1 12), ⟨m.cal_param, m.t_fine⟩)

/-- Pressure, then humidity: both values and the driver state at the end. -/
def CalcP_then_CalcH (s : Driver) (UP UH l0 : Int) : Option (Int × Int × Driver) :=
  (BME280_CalcP_exec s UP l0).bind fun rp =>
    some (rp.1, (BME280_CalcH_exec rp.2 UH l0).1, (BME280_CalcH_exec rp.2 UH l0).2)

/-- Humidity, then pressure: both values and the driver state at the end. -/
def CalcH_then_CalcP (s : Driver) (UP UH l0 : Int) : Option (Int × Int × Driver) :=
  (BME280_CalcP_exec (BME280_CalcH_exec s UH l0).2 UP l0).bind fun rp =>
    some (rp.1, (BME280_CalcH_exec s UH l0).1, rp.2)

/-! ## Configuration setters -/

/-- Registers and field masks of `bme280.h` used by the configuration
setters. -/
structure CtrlHeader where
  BME280_REG_CTRL_MEAS : Nat
  BME280_REG_CONFIG : Nat
  BME280_MODE_MSK : Nat
  BME280_FILTER_MSK : Nat
  BME280_STBY_MSK : Nat
  BME280_OSRS_T_MSK : Nat
  BME280_OSRS_P_MSK : Nat

/-- The assignment `reg = x & ~m` to a `uint8_t`: `x` is the `uint8_t` read
back, `m` the mask, both promoted to `int`. -/
def andNot8 (x m : Nat) : Nat := (Int.land (x : Int) (Int.not (m : Int))).toNat % 256

/-- The assignment `reg |= a & m` on a `uint8_t`. -/
def orAnd8 (reg a m : Nat) : Nat := (reg ||| (a &&& m)) % 256

/-- `BME280_SetMode`: the bus state after the call. -/
def BME280_SetMode {σ : Type} (C : CtrlHeader) (bus : I2C σ) (b : σ) (mode : Nat) : σ :=
  let rd := BME280_ReadReg bus b C.BME280_REG_CTRL_MEAS
  let reg := andNot8 rd.1 C.BME280_MODE_MSK
  let reg := orAnd8 reg mode C.BME280_MODE_MSK
  BME280_WriteReg bus rd.2 C.BME280_REG_CTRL_MEAS reg

/-- `BME280_SetFilter`: the bus state after the call. -/
def BME280_SetFilter {σ : Type} (C : CtrlHeader) (bus : I2C σ) (b : σ) (filter : Nat) : σ :=
  let rd := BME280_ReadReg bus b C.BME280_REG_CONFIG
  let reg := andNot8 rd.1 C.BME280_FILTER_MSK
  let reg := orAnd8 reg filter C.BME280_FILTER_MSK
  BME280_WriteReg bus rd.2 C.BME280_REG_CONFIG reg

/-- `BME280_SetStandby`: the bus state after the call. -/
def BME280_SetStandby {σ : Type} (C : CtrlHeader) (bus : I2C σ) (b : σ) (tsb : Nat) : σ :=
  let rd := BME280_ReadReg bus b C.BME280_REG_CONFIG
  let reg := andNot8 rd.1 C.BME280_STBY_MSK
  let reg := orAnd8 reg tsb C.BME280_STBY_MSK
  BME280_WriteReg bus rd.2 C.BME280_REG_CONFIG reg

/-- `BME280_SetOSRST`: the bus state after the call. -/
def BME280_SetOSRST {σ : Type} (C : CtrlHeader) (bus : I2C σ) (b : σ) (osrs : Nat) : σ :=
  let rd := BME280_ReadReg bus b C.BME280_REG_CTRL_MEAS
  let reg := andNot8 rd.1 C.BME280_OSRS_T_MSK
  let reg := orAnd8 reg osrs C.BME280_OSRS_T_MSK
  BME280_WriteReg bus rd.2 C.BME280_REG_CTRL_MEAS reg

/-- `BME280_SetOSRSP`: the bus state after the call. -/
def BME280_SetOSRSP {σ : Type} (C : CtrlHeader) (bus : I2C σ) (b : σ) (osrs : Nat) : σ :=
  let rd := BME280_ReadReg bus b C.BME280_REG_CTRL_MEAS
  let reg := andNot8 rd.1 C.BME280_OSRS_P_MSK
  let reg := orAnd8 reg osrs C.BME280_OSRS_P_MSK
  BME280_WriteReg bus rd.2 C.BME280_REG_CTRL_MEAS reg

/-- A bus that records what is written: the state is the register value the
device answers a read with, and the list of byte strings written so far. -/
def recordBus : I2C (Nat × List (List Nat)) where
  I2Cx_Write := fun b bytes _ => (true, (b.1, b.2 ++ [bytes]))
  I2Cx_Read := fun b _ => ((true, [b.1]), b)

/-- Registers and masks of the BME280 register map, as in the data sheet. -/
def bme280Ctrl : CtrlHeader where
  BME280_REG_CTRL_MEAS := 0xF4
  BME280_REG_CONFIG := 0xF5
  BME280_MODE_MSK := 0x03
  BME280_FILTER_MSK := 0x1C
  BME280_STBY_MSK := 0xE0
  BME280_OSRS_T_MSK := 0xE0
  BME280_OSRS_P_MSK := 0x1C

/-! ## Overflow-checked pressure -/

/-- Lines 339 to 343 of `BME280_CalcP` and the sum `(1 << 47) + v1` of line 344
with every `int64_t` operation checked: `none` as soon as an intermediate value
leaves the `int64_t` range, otherwise `v2` and the sum. -/
def CalcP_head_checked (s : Driver) : Option (Int × Int) :=
  let c := s.cal_param
  andThen (chk64 (wrap64 s.t_fine - 128000)) fun v1 =>
  andThen (chk64 (v1 * v1)) fun q6 =>
  andThen (chk64 (q6 * wrap64 c.dig_P6)) fun v2 =>
  andThen (chk64 (v1 * wrap64 c.dig_P5)) fun m5 =>
  andThen (chk64 (m5 * 2 ^ 17)) fun s5 =>
  andThen (chk64 (v2 + s5)) fun v2 =>
  andThen (chk64 (wrap64 c.dig_P4 * 2 ^ 35)) fun s4 =>
  andThen (chk64 (v2 + s4)) fun v2 =>
  andThen (chk64 (v1 * v1)) fun q3 =>
  andThen (chk64 (q3 * wrap64 c.dig_P3)) fun m3 =>
  andThen (chk64 (v1 * wrap64 c.dig_P2)) fun m2 =>
  andThen (chk64 (m2 * 2 ^ 12)) fun s2 =>
  andThen (chk64 (sar m3 8 + s2)) fun v1 =>
  andThen (chk64 (1 * 2 ^ 47)) fun one47 =>
  andThen (chk64 (one47 + v1)) fun base =>
  some (v2, base)

/-- `BME280_CalcP` with every `int64_t` operation checked: `none` as soon as an
intermediate value leaves the `int64_t` range. -/
def BME280_CalcP_checked (s : Driver) (UP : Int) : Option Int :=
  let c := s.cal_param
  (CalcP_head_checked s).bind fun hd =>
  andThen (chk64 (hd.2 * wrap64 c.dig_P1)) fun m1 =>
  let v1 := sar m1 33
  if v1 = 0 then some 0
  else
    andThen (chk32 (1048576 - UP)) fun p =>
    andThen (chk64 (p * 2 ^ 31)) fun ps =>
    andThen (chk64 (ps - hd.1)) fun n =>
    andThen (chk64 (n * 3125)) fun n =>
    andThen (chk64 (Int.tdiv n v1)) fun p =>
    andThen (chk64 (wrap64 c.dig_P9 * sar p 13)) fun m9 =>
    andThen (chk64 (m9 * sar p 13)) fun m9 =>
    andThen (chk64 (wrap64 c.dig_P8 * p)) fun m8 =>
    andThen (chk64 (p + sar m9 25)) fun a1 =>
    andThen (chk64 (a1 + sar m8 19)) fun a2 =>
    andThen (chk64 (wrap64 c.dig_P7 * 2 ^ 4)) fun s7 =>
    andThen (chk64 (sar a2 8 + s7)) fun p =>
    some (toU32 p)

/-- Lines 339 to 343 of the pressure formula and the sum of line 344 over
unbounded integers: `v2` and `(1 << 47) + v1`. -/
def CalcP_head_exact (fine P2 P3 P4 P5 P6 : Int) : Int × Int :=
  let v1 := fine - 128000
  (v1 * v1 * P6 + v1 * P5 * 131072 + P4 * 34359738368,
   140737488355328 + (v1 * v1 * P3 / 256 + v1 * P2 * 4096))

/-! ## Sample data -/

/-- The calibration of the worked temperature and pressure example of the data
sheet, with sample humidity constants. -/
def calExample : Calibration :=
  ⟨27504, 26435, -1000, 36477, -10685, 3024, 2855, 140, -7, 15500, -14600, 6000,
    75, 353, 0, 340, 0, 30⟩

/-- The sample calibration with `dig_P1` replaced by 0. -/
def calZeroP1 : Calibration := { calExample with dig_P1 := 0 }

/-- The sample calibration with the largest `dig_P1` and `dig_P2`. -/
def calMaxP : Calibration := { calExample with dig_P1 := 65535, dig_P2 := 32767 }

/-- A calibration inside the field ranges whose temperature product overflows:
`dig_T1 = 0`, `dig_T2 = 32767`, `dig_T3 = 0`. -/
def calMaxT : Calibration := { calExample with dig_T1 := 0, dig_T2 := 32767, dig_T3 := 0 }

/-- A bus script for `BME280_Read_Calibration`: both operations of the
single-register read of `dig_H1` time out, all others succeed. -/
def scriptH1Fails : List (Bool × List Nat) :=
  [(true, []), (true, List.replicate 24 1), (false, []), (false, []),
   (true, []), (true, [1, 2, 3, 4, 5, 6, 7])]

/-- The driver state at power-on, before any calibration read: file-scope
objects are zero. -/
def driverReset : Driver :=
  ⟨⟨0, 0, 0, 0, 0, 0, 0, 0, 0, 0, 0, 0, 0, 0, 0, 0, 0, 0⟩, 0⟩

/-- A bus script for `BME280_Read_Calibration`: the first block (the image of
the sample calibration) and `dig_H1` are read, then the write of the calib26
address times out. -/
def scriptCalibAborts : List (Bool × List Nat) :=
  [(true, []), (true, calImage calExample), (true, []), (true, [75]), (false, [])]

/-- A driver state that differs from the sample calibration in every pressure
and humidity constant and in the fine temperature. -/
def driverOther : Driver :=
  ⟨⟨27504, 26435, -1000, 1, 2, 3, 4, 5, 6, 7, 8, 9, 10, 11, 12, 13, 14, 15⟩, -99999⟩

/-- A bus script for `BME280_Read_Calibration` on which every operation
succeeds; the humidity block holds bytes with the sign bit set. -/
def scriptCalibOk : List (Bool × List Nat) :=
  [(true, []), (true, calImage calExample), (true, []), (true, [75]),
   (true, []), (true, [0x69, 0x81, 0x00, 0xF5, 0xA3, 0x80, 0x1E])]

/-! ## Theorems -/

/-! ### Pressure: the zero guard -/

theorem wrap64_zero : wrap64 0 = 0 := by decide

/-- C1: `BME280_CalcP` returns exactly 0, without dividing, whenever the base
term `v1` of line 344 is 0; a calibration with `dig_P1 = 0` forces `v1 = 0`, so
the result is 0 for every fine temperature and every raw pressure; and no input
at all reaches the division with a zero divisor. -/
theorem BME280_CalcP_zero_guard (s : Driver) (UP : Int) :
    (CalcP_v1 s = 0 → BME280_CalcP s UP = some 0) ∧
    (s.cal_param.dig_P1 = 0 → CalcP_v1 s = 0 ∧ BME280_CalcP s UP = some 0) ∧
    BME280_CalcP s UP ≠ none := by
  have hguard : CalcP_v1 s = 0 → BME280_CalcP s UP = some 0 := by
    intro h
    simp [BME280_CalcP, h]
  refine ⟨hguard, ?_, ?_⟩
  · intro hP1
    have hv1 : CalcP_v1 s = 0 := by
      simp [CalcP_v1, hP1, wrap64_zero, mul64, sar]
    exact ⟨hv1, hguard hv1⟩
  · by_cases h : CalcP_v1 s = 0
    · rw [hguard h]; simp
    · simp [BME280_CalcP, h, div64]

theorem BME280_CalcP_zero_guard_witness :
    BME280_CalcP ⟨calZeroP1, 128422⟩ 415148 = some 0 :=
  ((BME280_CalcP_zero_guard ⟨calZeroP1, 128422⟩ 415148).2.1 rfl).2

/-! ### Pa to mmHg: the stated example -/

/-- C2 (as stated, refuted): with `BME_MMHG_Q0_20 = 7865` the conversion of
24674867 is not 746225. -/
theorem BME280_Pa_to_mmHg_example_ne : BME280_Pa_to_mmHg 24674867 ≠ 746225 := by
  decide

/-- C2 (amended): with `BME_MMHG_Q0_20 = 7865`, `BME280_Pa_to_mmHg 24674867` is
722958 (722.958 mmHg for 96386.2 Pa), and no Q0.20 factor below `2 ^ 20` makes
the function return 746225 on that input. -/
theorem BME280_Pa_to_mmHg_example :
    BME_MMHG_Q0_20 = 7865 ∧ BME280_Pa_to_mmHg 24674867 = 722958 ∧
    ∀ k : Nat, k < 2 ^ 20 → Pa_to_mmHg_with k 24674867 ≠ 746225 := by
  refine ⟨rfl, by decide, ?_⟩
  intro k hk
  have hk' : k < 1048576 := by norm_num at hk; exact hk
  simp only [Pa_to_mmHg_with]
  norm_num
  have e1 : 24674867 * k % 18446744073709551616 = 24674867 * k :=
    Nat.mod_eq_of_lt (by omega)
  rw [e1]
  have hb : 24674867 * k / 268435456 ≤ 96390 := by omega
  have hf1 : 24674867 * k * 16 % 4294967296 / 524288 ≤ 8191 := by omega
  generalize hfr : 24674867 * k * 16 % 4294967296 / 524288 = fr at hf1
  have e3 : fr * 122070 % 4294967296 = fr * 122070 := Nat.mod_eq_of_lt (by omega)
  rw [e3]
  have hf2 : fr * 122070 / 1000000 ≤ 999 := by omega
  generalize ht : fr * 122070 / 1000000 = t at hf2
  generalize hq : 24674867 * k / 268435456 = q at hb
  have e2 : (q * 1000 + t) % 4294967296 = q * 1000 + t := Nat.mod_eq_of_lt (by omega)
  rw [e2]
  intro h
  have hq3 : q = 746 := by omega
  subst hq3
  have ht2 : t = 225 := by omega
  subst ht2
  have hlo : 8116 ≤ k := by omega
  have hhi : k ≤ 8126 := by omega
  clear hk hk' e1 e2 e3 hb hf1 hf2 h hq
  interval_cases k <;> omega

/-! ### Humidity: range and saturation -/

/-- C3: for every calibration, every fine temperature and every raw humidity,
with wrapping 32-bit intermediates, the value returned by `BME280_CalcH` lies in
the closed range [0, 409600]. -/
theorem BME280_CalcH_range (s : Driver) (UH : Int) :
    0 ≤ BME280_CalcH s UH ∧ BME280_CalcH s UH ≤ 409600 := by
  unfold BME280_CalcH toU32 sar
  generalize CalcH_vx1 s UH = v
  norm_num
  split_ifs <;> omega

/-- C4: `BME280_CalcH` saturates at both ends: a negative pre-clamp `vx1` gives
exactly 0, a `vx1` above 419430400 gives exactly 102400, any other `vx1` gives
`vx1 >> 12`; the result never exceeds 102400. -/
theorem BME280_CalcH_saturates (s : Driver) (UH : Int) :
    (CalcH_vx1 s UH < 0 → BME280_CalcH s UH = 0) ∧
    (CalcH_vx1 s UH > 419430400 → BME280_CalcH s UH = 102400) ∧
    (0 ≤ CalcH_vx1 s UH → CalcH_vx1 s UH ≤ 419430400 →
      BME280_CalcH s UH = sar (CalcH_vx1 s UH) 12) ∧
    BME280_CalcH s UH ≤ 102400 := by
  unfold BME280_CalcH toU32 sar
  generalize CalcH_vx1 s UH = v
  norm_num
  refine ⟨?_, ?_, ?_, ?_⟩
  · intro h; split_ifs <;> omega
  · intro h; split_ifs <;> omega
  · intro h1 h2; split_ifs <;> omega
  · split_ifs <;> omega

theorem BME280_CalcH_saturates_witness :
    BME280_CalcH ⟨calExample, 128422⟩ 0 = 0 ∧
    BME280_CalcH ⟨calExample, 128422⟩ 65535 = 102400 ∧
    BME280_CalcH ⟨calExample, 128422⟩ 30000 = sar 189214085 12 :=
  ⟨(BME280_CalcH_saturates ⟨calExample, 128422⟩ 0).1 (by decide),
   (BME280_CalcH_saturates ⟨calExample, 128422⟩ 65535).2.1 (by decide),
   (BME280_CalcH_saturates ⟨calExample, 128422⟩ 30000).2.2.1 (by decide) (by decide)⟩

/-! ### Temperature -/

/-- C5: `BME280_CalcT` stores as fine temperature the (32-bit) sum of the two
shifted terms, leaves the calibration alone and returns `(fine*5 + 128) >> 8`;
whenever `fine*5 + 128` fits `int32_t` the returned `T` is the floor of
`(5*fine + 128) / 256`, the integer nearest to `5*fine/256` with ties rounded
up: `-128 < 256*T - 5*fine ≤ 128`. -/
theorem BME280_CalcT_rounding (s : Driver) (UT : Int) :
    (BME280_CalcT s UT).2.t_fine =
      wrap32 (wrap32 (wrap32 (UT / 8 - wrap32 (wrap32 s.cal_param.dig_T1 * 2))
                        * wrap32 s.cal_param.dig_T2) / 2048
        + wrap32 (wrap32 (wrap32 (UT / 16 - wrap32 s.cal_param.dig_T1)
                            * wrap32 (UT / 16 - wrap32 s.cal_param.dig_T1)) / 4096
                    * wrap32 s.cal_param.dig_T3) / 16384) ∧
    (BME280_CalcT s UT).2.cal_param = s.cal_param ∧
    (BME280_CalcT s UT).1 =
      sar (add32 (mul32 (BME280_CalcT s UT).2.t_fine 5) 128) 8 ∧
    (inI32 ((BME280_CalcT s UT).2.t_fine * 5 + 128) →
      (BME280_CalcT s UT).1 = ((BME280_CalcT s UT).2.t_fine * 5 + 128) / 256 ∧
      -128 < 256 * (BME280_CalcT s UT).1 - 5 * (BME280_CalcT s UT).2.t_fine ∧
      256 * (BME280_CalcT s UT).1 - 5 * (BME280_CalcT s UT).2.t_fine ≤ 128) := by
  refine ⟨?_, rfl, rfl, ?_⟩
  · simp only [BME280_CalcT, CalcT_line322, CalcT_line323, add32, sub32, mul32, shl32, sar]
    norm_num
  · simp only [BME280_CalcT]
    generalize add32 (CalcT_line322 s.cal_param UT) (CalcT_line323 s.cal_param UT) = f
    unfold inI32 sar add32 mul32 wrap32
    norm_num
    omega

theorem BME280_CalcT_rounding_witness :
    (BME280_CalcT ⟨calExample, 0⟩ 519888).1 = (128422 * 5 + 128) / 256 :=
  ((BME280_CalcT_rounding ⟨calExample, 0⟩ 519888).2.2.2 (by decide)).1

/-- C8: on the worked reference vector `dig_T1 = 27504`, `dig_T2 = 26435`,
`dig_T3 = -1000`, raw temperature 519888, `BME280_CalcT` stores fine
temperature 128422 and returns 2508, whatever the previous fine temperature. -/
theorem BME280_CalcT_reference_vector (t0 : Int) :
    calExample.dig_T1 = 27504 ∧ calExample.dig_T2 = 26435 ∧ calExample.dig_T3 = -1000 ∧
    (BME280_CalcT ⟨calExample, t0⟩ 519888).1 = 2508 ∧
    (BME280_CalcT ⟨calExample, t0⟩ 519888).2.t_fine = 128422 := by
  exact ⟨rfl, rfl, rfl, by rfl, by rfl⟩

/-! ### Checked arithmetic: helper lemmas -/

theorem andThen_chk32 {α : Type} (x : Int) (f : Int → Option α) :
    andThen (chk32 x) f = if inI32 x then f x else none := by
  unfold andThen chk32
  split_ifs <;> rfl

theorem andThen_chk64 {α : Type} (x : Int) (f : Int → Option α) :
    andThen (chk64 x) f = if inI64 x then f x else none := by
  unfold andThen chk64
  split_ifs <;> rfl

theorem andThen_chk64_eq {α : Type} {x : Int} {f : Int → Option α} {r : Option α}
    (hx : inI64 x) (hr : f x = r) : andThen (chk64 x) f = r := by
  rw [andThen_chk64, if_pos hx, hr]

theorem wrap32_of_inI32 {x : Int} (h : inI32 x) : wrap32 x = x := by
  unfold inI32 at h
  unfold wrap32
  omega

theorem wrap64_of_inI64 {x : Int} (h : inI64 x) : wrap64 x = x := by
  unfold inI64 at h
  unfold wrap64
  omega

theorem mul_bounds {a b A B : Int} (ha : -A ≤ a ∧ a ≤ A) (hb : -B ≤ b ∧ b ≤ B) :
    -(A * B) ≤ a * b ∧ a * b ≤ A * B := by
  obtain ⟨ha1, ha2⟩ := ha
  obtain ⟨hb1, hb2⟩ := hb
  constructor
  · nlinarith [mul_nonneg (sub_nonneg.2 ha2) (sub_nonneg.2 hb2),
      mul_nonneg (show (0 : Int) ≤ a + A by omega) (show (0 : Int) ≤ b + B by omega)]
  · nlinarith [mul_nonneg (sub_nonneg.2 ha2) (show (0 : Int) ≤ b + B by omega),
      mul_nonneg (show (0 : Int) ≤ a + A by omega) (sub_nonneg.2 hb2)]

theorem CalcT_checked_fine_bound (c : Calibration) (UT T f : Int)
    (h : BME280_CalcT_checked c UT = some (T, f)) : -1179648 ≤ f ∧ f ≤ 1179647 := by
  simp only [BME280_CalcT_checked, andThen_chk32, sar, Int.reducePow] at h
  split_ifs at h with h1 h2 h3 h4 h5 h6 h7 h8 h9
  simp only [Option.some.injEq, Prod.mk.injEq] at h
  obtain ⟨-, hf⟩ := h
  unfold inI32 at h3 h6
  omega


/-! ### Temperature: 32-bit overflow -/

/-- C6 (as stated, refuted): with `UT = 1048575`, `dig_T1 = 0`, `dig_T2 = 32767`,
`dig_T3 = 0`, all inside the stated ranges, the product of line 322 leaves the
`int32_t` range; the wrapped computation gives fine temperature -80 and the
formula over unbounded integers gives 2097072. -/
theorem BME280_CalcT_overflow_example :
    (0 ≤ (1048575 : Int) ∧ (1048575 : Int) < 2 ^ 20) ∧
    (0 ≤ calMaxT.dig_T1 ∧ calMaxT.dig_T1 ≤ 65535) ∧
    (-32768 ≤ calMaxT.dig_T2 ∧ calMaxT.dig_T2 ≤ 32767) ∧
    (-32768 ≤ calMaxT.dig_T3 ∧ calMaxT.dig_T3 ≤ 32767) ∧
    BME280_CalcT_checked calMaxT 1048575 = none ∧
    (BME280_CalcT ⟨calMaxT, 0⟩ 1048575).2.t_fine = -80 ∧
    (CalcT_exact calMaxT.dig_T1 calMaxT.dig_T2 calMaxT.dig_T3 1048575).2 = 2097072 := by
  decide

/-- C6 (amended): for `UT` in [0, 2^20), `dig_T1` in [0, 65535] and `dig_T2`,
`dig_T3` in [-32768, 32767], no intermediate value of `BME280_CalcT` leaves the
`int32_t` range exactly when the three products `((UT>>3) - 2*dig_T1) * dig_T2`,
`((UT>>4) - dig_T1)^2` and `(((UT>>4) - dig_T1)^2 >> 12) * dig_T3` fit `int32_t`;
in that case the 32-bit computation (returned value and stored fine
temperature) equals the formula evaluated over unbounded integers. -/
theorem BME280_CalcT_exact_iff (c : Calibration) (UT t0 : Int)
    (hUT : 0 ≤ UT ∧ UT < 1048576) (hT1 : 0 ≤ c.dig_T1 ∧ c.dig_T1 ≤ 65535)
    (hT2 : -32768 ≤ c.dig_T2 ∧ c.dig_T2 ≤ 32767)
    (hT3 : -32768 ≤ c.dig_T3 ∧ c.dig_T3 ≤ 32767) :
    ((BME280_CalcT_checked c UT ≠ none) ↔
      (inI32 ((UT / 8 - c.dig_T1 * 2) * c.dig_T2) ∧
       inI32 ((UT / 16 - c.dig_T1) * (UT / 16 - c.dig_T1)) ∧
       inI32 ((UT / 16 - c.dig_T1) * (UT / 16 - c.dig_T1) / 4096 * c.dig_T3))) ∧
    (BME280_CalcT_checked c UT ≠ none →
      BME280_CalcT_checked c UT = some (CalcT_exact c.dig_T1 c.dig_T2 c.dig_T3 UT) ∧
      (BME280_CalcT ⟨c, t0⟩ UT).1 = (CalcT_exact c.dig_T1 c.dig_T2 c.dig_T3 UT).1 ∧
      (BME280_CalcT ⟨c, t0⟩ UT).2.t_fine = (CalcT_exact c.dig_T1 c.dig_T2 c.dig_T3 UT).2) := by
  have e1 : wrap32 c.dig_T1 = c.dig_T1 := wrap32_of_inI32 (by unfold inI32; omega)
  have e2 : wrap32 c.dig_T2 = c.dig_T2 := wrap32_of_inI32 (by unfold inI32; omega)
  have e3 : wrap32 c.dig_T3 = c.dig_T3 := wrap32_of_inI32 (by unfold inI32; omega)
  have c1 : inI32 (c.dig_T1 * 2) := by unfold inI32; omega
  have c2 : inI32 (UT / 8 - c.dig_T1 * 2) := by unfold inI32; omega
  have c4 : inI32 (UT / 16 - c.dig_T1) := by unfold inI32; omega
  have key : BME280_CalcT_checked c UT =
      if inI32 ((UT / 8 - c.dig_T1 * 2) * c.dig_T2) then
        if inI32 ((UT / 16 - c.dig_T1) * (UT / 16 - c.dig_T1)) then
          if inI32 ((UT / 16 - c.dig_T1) * (UT / 16 - c.dig_T1) / 4096 * c.dig_T3) then
            some (CalcT_exact c.dig_T1 c.dig_T2 c.dig_T3 UT)
          else none
        else none
      else none := by
    simp only [BME280_CalcT_checked, andThen_chk32, sar, e1, e2, e3, pow_one, Int.reducePow,
      if_pos c1, if_pos c2, if_pos c4]
    split_ifs with h1 h2 h3 h4 h5 h6
    · rfl
    · exfalso; apply h6; unfold inI32 at *; omega
    · exfalso; apply h5; unfold inI32 at *; omega
    · exfalso; apply h4; unfold inI32 at *; omega
    · rfl
    · rfl
    · rfl
  rw [key]
  constructor
  · split_ifs <;> simp [*]
  · intro hne
    split_ifs at hne with h1 h2 h3
    · refine ⟨by simp only [if_pos h1, if_pos h2, if_pos h3], ?_⟩
      have c7 : inI32 ((UT / 8 - c.dig_T1 * 2) * c.dig_T2 / 2048
          + (UT / 16 - c.dig_T1) * (UT / 16 - c.dig_T1) / 4096 * c.dig_T3 / 16384) := by
        unfold inI32 at *; omega
      have c8 : inI32 (((UT / 8 - c.dig_T1 * 2) * c.dig_T2 / 2048
          + (UT / 16 - c.dig_T1) * (UT / 16 - c.dig_T1) / 4096 * c.dig_T3 / 16384) * 5) := by
        unfold inI32 at *; omega
      have c9 : inI32 (((UT / 8 - c.dig_T1 * 2) * c.dig_T2 / 2048
          + (UT / 16 - c.dig_T1) * (UT / 16 - c.dig_T1) / 4096 * c.dig_T3 / 16384) * 5
          + 128) := by
        unfold inI32 at *; omega
      simp only [BME280_CalcT, CalcT_line322, CalcT_line323, CalcT_exact, add32, sub32, mul32,
        shl32, sar, e1, e2, e3, pow_one, Int.reducePow, wrap32_of_inI32 c1, wrap32_of_inI32 c2,
        wrap32_of_inI32 c4, wrap32_of_inI32 h1, wrap32_of_inI32 h2, wrap32_of_inI32 h3,
        wrap32_of_inI32 c7, wrap32_of_inI32 c8, wrap32_of_inI32 c9, and_self]
    · exact absurd rfl hne
    · exact absurd rfl hne
    · exact absurd rfl hne

theorem BME280_CalcT_exact_iff_witness :
    BME280_CalcT_checked calExample 519888 = some (CalcT_exact 27504 26435 (-1000) 519888) :=
  ((BME280_CalcT_exact_iff calExample 519888 0 (by decide) (by decide) (by decide)
    (by decide)).2 (by decide)).1

/-! ### Pressure: 64-bit overflow -/

/-- C7 (as stated, refuted): with the fine temperature 128422 that
`BME280_CalcT` produces without overflow on the reference vector, and the
in-range calibration `dig_P1 = 65535`, `dig_P2 = 32767`, the product
`((1 << 47) + v1) * dig_P1` of line 344 leaves the `int64_t` range. -/
theorem BME280_CalcP_overflow_example :
    (0 ≤ (519888 : Int) ∧ (519888 : Int) < 2 ^ 20) ∧
    (0 ≤ calExample.dig_T1 ∧ calExample.dig_T1 ≤ 65535) ∧
    (-32768 ≤ calExample.dig_T2 ∧ calExample.dig_T2 ≤ 32767) ∧
    (-32768 ≤ calExample.dig_T3 ∧ calExample.dig_T3 ≤ 32767) ∧
    BME280_CalcT_checked calExample 519888 = some (2508, 128422) ∧
    (0 ≤ (415148 : Int) ∧ (415148 : Int) < 2 ^ 20) ∧
    (0 ≤ calMaxP.dig_P1 ∧ calMaxP.dig_P1 ≤ 65535) ∧
    (-32768 ≤ calMaxP.dig_P2 ∧ calMaxP.dig_P2 ≤ 32767) ∧
    (-32768 ≤ calMaxP.dig_P3 ∧ calMaxP.dig_P3 ≤ 32767) ∧
    (-32768 ≤ calMaxP.dig_P4 ∧ calMaxP.dig_P4 ≤ 32767) ∧
    (-32768 ≤ calMaxP.dig_P5 ∧ calMaxP.dig_P5 ≤ 32767) ∧
    (-32768 ≤ calMaxP.dig_P6 ∧ calMaxP.dig_P6 ≤ 32767) ∧
    (-32768 ≤ calMaxP.dig_P7 ∧ calMaxP.dig_P7 ≤ 32767) ∧
    (-32768 ≤ calMaxP.dig_P8 ∧ calMaxP.dig_P8 ≤ 32767) ∧
    (-32768 ≤ calMaxP.dig_P9 ∧ calMaxP.dig_P9 ≤ 32767) ∧
    BME280_CalcP_checked ⟨calMaxP, 128422⟩ 415148 = none ∧
    ¬ inI64 (140794128611649 * calMaxP.dig_P1) := by
  decide

/-- C7 (amended): for `dig_P2..dig_P6` in [-32768, 32767] and every fine
temperature that `BME280_CalcT` produces without 32-bit overflow, no
intermediate value of lines 339 to 343 of `BME280_CalcP`, nor the sum
`(1 << 47) + v1` of line 344, leaves the `int64_t` range: the checked
computation yields the values of the formula over unbounded integers, the
`v2` of `BME280_CalcP` is that value, and its `v1` is the 64-bit product of the
unbounded sum by `dig_P1`, shifted by 33. -/
theorem CalcP_head_no_overflow (s : Driver) (cT : Calibration) (UT T : Int)
    (hfine : BME280_CalcT_checked cT UT = some (T, s.t_fine))
    (hP2 : -32768 ≤ s.cal_param.dig_P2 ∧ s.cal_param.dig_P2 ≤ 32767)
    (hP3 : -32768 ≤ s.cal_param.dig_P3 ∧ s.cal_param.dig_P3 ≤ 32767)
    (hP4 : -32768 ≤ s.cal_param.dig_P4 ∧ s.cal_param.dig_P4 ≤ 32767)
    (hP5 : -32768 ≤ s.cal_param.dig_P5 ∧ s.cal_param.dig_P5 ≤ 32767)
    (hP6 : -32768 ≤ s.cal_param.dig_P6 ∧ s.cal_param.dig_P6 ≤ 32767) :
    CalcP_head_checked s = some (CalcP_head_exact s.t_fine s.cal_param.dig_P2
      s.cal_param.dig_P3 s.cal_param.dig_P4 s.cal_param.dig_P5 s.cal_param.dig_P6) ∧
    CalcP_v2 s = (CalcP_head_exact s.t_fine s.cal_param.dig_P2
      s.cal_param.dig_P3 s.cal_param.dig_P4 s.cal_param.dig_P5 s.cal_param.dig_P6).1 ∧
    CalcP_v1 s = sar (mul64 (CalcP_head_exact s.t_fine s.cal_param.dig_P2
      s.cal_param.dig_P3 s.cal_param.dig_P4 s.cal_param.dig_P5 s.cal_param.dig_P6).2
      (wrap64 s.cal_param.dig_P1)) 33 := by
  have hf := CalcT_checked_fine_bound cT UT T s.t_fine hfine
  have e0 : wrap64 s.t_fine = s.t_fine := wrap64_of_inI64 (by unfold inI64; omega)
  have e2 : wrap64 s.cal_param.dig_P2 = s.cal_param.dig_P2 :=
    wrap64_of_inI64 (by unfold inI64; omega)
  have e3 : wrap64 s.cal_param.dig_P3 = s.cal_param.dig_P3 :=
    wrap64_of_inI64 (by unfold inI64; omega)
  have e4 : wrap64 s.cal_param.dig_P4 = s.cal_param.dig_P4 :=
    wrap64_of_inI64 (by unfold inI64; omega)
  have e5 : wrap64 s.cal_param.dig_P5 = s.cal_param.dig_P5 :=
    wrap64_of_inI64 (by unfold inI64; omega)
  have e6 : wrap64 s.cal_param.dig_P6 = s.cal_param.dig_P6 :=
    wrap64_of_inI64 (by unfold inI64; omega)
  have hv : -1307648 ≤ s.t_fine - 128000 ∧ s.t_fine - 128000 ≤ 1307648 := by omega
  have hq := mul_bounds hv hv
  have hq6 := mul_bounds hq (show -32768 ≤ s.cal_param.dig_P6 ∧ s.cal_param.dig_P6 ≤ 32768 by omega)
  have hq3 := mul_bounds hq (show -32768 ≤ s.cal_param.dig_P3 ∧ s.cal_param.dig_P3 ≤ 32768 by omega)
  have hm5 := mul_bounds hv (show -32768 ≤ s.cal_param.dig_P5 ∧ s.cal_param.dig_P5 ≤ 32768 by omega)
  have hm2 := mul_bounds hv (show -32768 ≤ s.cal_param.dig_P2 ∧ s.cal_param.dig_P2 ≤ 32768 by omega)
  norm_num at hq hq6 hq3 hm5 hm2
  refine ⟨?_, ?_, ?_⟩
  rotate_left
  · have k1 : inI64 (s.t_fine - 128000) := by unfold inI64; omega
    have k2 : inI64 ((s.t_fine - 128000) * (s.t_fine - 128000)) := by unfold inI64; omega
    have k3 : inI64 ((s.t_fine - 128000) * (s.t_fine - 128000) * s.cal_param.dig_P6) := by
      unfold inI64; omega
    have k4 : inI64 ((s.t_fine - 128000) * s.cal_param.dig_P5) := by unfold inI64; omega
    have k5 : inI64 ((s.t_fine - 128000) * s.cal_param.dig_P5 * 131072) := by
      unfold inI64; omega
    have k6 : inI64 ((s.t_fine - 128000) * (s.t_fine - 128000) * s.cal_param.dig_P6
        + (s.t_fine - 128000) * s.cal_param.dig_P5 * 131072) := by unfold inI64; omega
    have k7 : inI64 (s.cal_param.dig_P4 * 34359738368) := by unfold inI64; omega
    have k8 : inI64 ((s.t_fine - 128000) * (s.t_fine - 128000) * s.cal_param.dig_P6
        + (s.t_fine - 128000) * s.cal_param.dig_P5 * 131072
        + s.cal_param.dig_P4 * 34359738368) := by unfold inI64; omega
    simp only [CalcP_v2, CalcP_head_exact, sub64, mul64, add64, shl64, e0, e4, e5, e6,
      Int.reducePow, wrap64_of_inI64 k1, wrap64_of_inI64 k2, wrap64_of_inI64 k3,
      wrap64_of_inI64 k4, wrap64_of_inI64 k5, wrap64_of_inI64 k6, wrap64_of_inI64 k7,
      wrap64_of_inI64 k8]
  · have k1 : inI64 (s.t_fine - 128000) := by unfold inI64; omega
    have k2 : inI64 ((s.t_fine - 128000) * (s.t_fine - 128000)) := by unfold inI64; omega
    have k3 : inI64 ((s.t_fine - 128000) * (s.t_fine - 128000) * s.cal_param.dig_P3) := by
      unfold inI64; omega
    have k4 : inI64 ((s.t_fine - 128000) * s.cal_param.dig_P2) := by unfold inI64; omega
    have k5 : inI64 ((s.t_fine - 128000) * s.cal_param.dig_P2 * 4096) := by
      unfold inI64; omega
    have k6 : inI64 ((s.t_fine - 128000) * (s.t_fine - 128000) * s.cal_param.dig_P3 / 256
        + (s.t_fine - 128000) * s.cal_param.dig_P2 * 4096) := by unfold inI64; omega
    have k7 : inI64 140737488355328 := by unfold inI64; omega
    have k8 : inI64 (140737488355328
        + ((s.t_fine - 128000) * (s.t_fine - 128000) * s.cal_param.dig_P3 / 256
        + (s.t_fine - 128000) * s.cal_param.dig_P2 * 4096)) := by unfold inI64; omega
    simp only [CalcP_v1, CalcP_head_exact, sub64, mul64, add64, shl64, sar, e0, e2, e3,
      Int.reducePow, wrap64_of_inI64 k1, wrap64_of_inI64 k2, wrap64_of_inI64 k3,
      wrap64_of_inI64 k4, wrap64_of_inI64 k5, wrap64_of_inI64 k6, wrap64_of_inI64 k7,
      wrap64_of_inI64 k8, one_mul]
  simp only [CalcP_head_checked, e0, e2, e3, e4, e5, e6, sar, Int.reducePow]
  refine andThen_chk64_eq (by unfold inI64; omega) ?_
  refine andThen_chk64_eq (by unfold inI64; omega) ?_
  refine andThen_chk64_eq (by unfold inI64; omega) ?_
  refine andThen_chk64_eq (by unfold inI64; omega) ?_
  refine andThen_chk64_eq (by unfold inI64; omega) ?_
  refine andThen_chk64_eq (by unfold inI64; omega) ?_
  refine andThen_chk64_eq (by unfold inI64; omega) ?_
  refine andThen_chk64_eq (by unfold inI64; omega) ?_
  refine andThen_chk64_eq (by unfold inI64; omega) ?_
  refine andThen_chk64_eq (by unfold inI64; omega) ?_
  refine andThen_chk64_eq (by unfold inI64; omega) ?_
  refine andThen_chk64_eq (by unfold inI64; omega) ?_
  refine andThen_chk64_eq (by unfold inI64; omega) ?_
  refine andThen_chk64_eq (by unfold inI64; omega) ?_
  refine andThen_chk64_eq (by unfold inI64; omega) ?_
  simp only [CalcP_head_exact, Option.some.injEq, Prod.mk.injEq, one_mul, and_self]


theorem CalcP_head_no_overflow_witness :
    CalcP_head_checked ⟨calMaxP, 128422⟩ = some (98104795527812, 140794128611649) :=
  (CalcP_head_no_overflow ⟨calMaxP, 128422⟩ calExample 519888 2508 (by decide) (by decide)
    (by decide) (by decide) (by decide) (by decide)).1

/-! ### Raw reads: the no-data sentinel -/

/-- C9 (as stated, refuted): when both bus operations succeed and the bytes
read assemble to the sentinel, each raw-read operation returns `BME280_SUCCESS`
with the sentinel stored as the reading. -/
theorem raw_reads_sentinel_counterexample :
    BME280_Read_UP bme280Header scriptBus [(true, []), (true, [0x80, 0x00, 0x00])]
      = (BME280_SUCCESS, 0x80000, []) ∧
    BME280_Read_UT bme280Header scriptBus [(true, []), (true, [0x80, 0x00, 0x0F])]
      = (BME280_SUCCESS, 0x80000, []) ∧
    BME280_Read_UH bme280Header scriptBus [(true, []), (true, [0x80, 0x00])]
      = (BME280_SUCCESS, 0x8000, []) ∧
    BME280_Read_UTPH bme280Header scriptBus
        [(true, []), (true, [0x80, 0x00, 0x00, 0x80, 0x00, 0x00, 0x80, 0x00])]
      = (BME280_SUCCESS, { UT := 0x80000, UP := 0x80000, UH := 0x8000 }, []) := by
  refine ⟨?_, ?_, ?_, ?_⟩ <;> rfl

/-! ### Calibration read: bus failures -/

/-- C10 (failing input): on a bus where the write and the read of the
single-register read of `dig_H1` both time out and every other operation
succeeds, `BME280_Read_Calibration` returns `BME280_SUCCESS` and stores 0 in
`dig_H1`. -/
theorem BME280_Read_Calibration_drops_H1_failure :
    (BME280_Read_Calibration bme280Header scriptBus ⟨calExample, 0⟩ scriptH1Fails).1
      = BME280_SUCCESS ∧
    (BME280_Read_Calibration bme280Header scriptBus ⟨calExample, 0⟩
      scriptH1Fails).2.1.cal_param.dig_H1 = 0 ∧
    (BME280_Read_Calibration bme280Header scriptBus ⟨calExample, 0⟩ scriptH1Fails).2.2 = [] := by
  refine ⟨?_, ?_, ?_⟩ <;> decide

/-! ### Raw reads: bus failures -/

/-- C11: each raw-read operation returns `BME280_SUCCESS` exactly when the
register-address write and the following burst read both succeed; otherwise it
returns `BME280_ERROR` and every output it owns is 0. -/
theorem raw_reads_bus_failure {σ : Type} (H : Header) (bus : I2C σ) (b : σ) :
    (((BME280_Read_UP H bus b).1 = BME280_SUCCESS ↔
        (bus.I2Cx_Write b [H.BME280_REG_PRESS_MSB] I2C_NOSTOP).1 = true ∧
        (bus.I2Cx_Read (bus.I2Cx_Write b [H.BME280_REG_PRESS_MSB] I2C_NOSTOP).2 3).1.1 = true) ∧
      ((BME280_Read_UP H bus b).1 ≠ BME280_SUCCESS →
        (BME280_Read_UP H bus b).1 = BME280_ERROR ∧ (BME280_Read_UP H bus b).2.1 = 0)) ∧
    (((BME280_Read_UT H bus b).1 = BME280_SUCCESS ↔
        (bus.I2Cx_Write b [H.BME280_REG_TEMP_MSB] I2C_NOSTOP).1 = true ∧
        (bus.I2Cx_Read (bus.I2Cx_Write b [H.BME280_REG_TEMP_MSB] I2C_NOSTOP).2 3).1.1 = true) ∧
      ((BME280_Read_UT H bus b).1 ≠ BME280_SUCCESS →
        (BME280_Read_UT H bus b).1 = BME280_ERROR ∧ (BME280_Read_UT H bus b).2.1 = 0)) ∧
    (((BME280_Read_UH H bus b).1 = BME280_SUCCESS ↔
        (bus.I2Cx_Write b [H.BME280_REG_HUM_MSB] I2C_NOSTOP).1 = true ∧
        (bus.I2Cx_Read (bus.I2Cx_Write b [H.BME280_REG_HUM_MSB] I2C_NOSTOP).2 2).1.1 = true) ∧
      ((BME280_Read_UH H bus b).1 ≠ BME280_SUCCESS →
        (BME280_Read_UH H bus b).1 = BME280_ERROR ∧ (BME280_Read_UH H bus b).2.1 = 0)) ∧
    (((BME280_Read_UTPH H bus b).1 = BME280_SUCCESS ↔
        (bus.I2Cx_Write b [H.BME280_REG_PRESS_MSB] I2C_NOSTOP).1 = true ∧
        (bus.I2Cx_Read (bus.I2Cx_Write b [H.BME280_REG_PRESS_MSB] I2C_NOSTOP).2 8).1.1 = true) ∧
      ((BME280_Read_UTPH H bus b).1 ≠ BME280_SUCCESS →
        (BME280_Read_UTPH H bus b).1 = BME280_ERROR ∧
        (BME280_Read_UTPH H bus b).2.1 = { UT := 0, UP := 0, UH := 0 })) := by
  refine ⟨?_, ?_, ?_, ?_⟩
  · simp only [BME280_Read_UP, byteAt, List.getD_cons_zero]
    cases hw : (bus.I2Cx_Write b [H.BME280_REG_PRESS_MSB] I2C_NOSTOP).1 <;>
      cases hr : (bus.I2Cx_Read (bus.I2Cx_Write b [H.BME280_REG_PRESS_MSB] I2C_NOSTOP).2 3).1.1 <;>
      simp
  · simp only [BME280_Read_UT, byteAt, List.getD_cons_zero]
    cases hw : (bus.I2Cx_Write b [H.BME280_REG_TEMP_MSB] I2C_NOSTOP).1 <;>
      cases hr : (bus.I2Cx_Read (bus.I2Cx_Write b [H.BME280_REG_TEMP_MSB] I2C_NOSTOP).2 3).1.1 <;>
      simp
  · simp only [BME280_Read_UH, byteAt, List.getD_cons_zero]
    cases hw : (bus.I2Cx_Write b [H.BME280_REG_HUM_MSB] I2C_NOSTOP).1 <;>
      cases hr : (bus.I2Cx_Read (bus.I2Cx_Write b [H.BME280_REG_HUM_MSB] I2C_NOSTOP).2 2).1.1 <;>
      simp
  · simp only [BME280_Read_UTPH, byteAt, List.getD_cons_zero]
    cases hw : (bus.I2Cx_Write b [H.BME280_REG_PRESS_MSB] I2C_NOSTOP).1 <;>
      cases hr : (bus.I2Cx_Read (bus.I2Cx_Write b [H.BME280_REG_PRESS_MSB] I2C_NOSTOP).2 8).1.1 <;>
      simp

theorem raw_reads_bus_failure_witness :
    (BME280_Read_UP bme280Header scriptBus [(false, [])]).2.1 = 0 ∧
    (BME280_Read_UT bme280Header scriptBus [(true, []), (false, [1, 2, 3])]).2.1 = 0 ∧
    (BME280_Read_UH bme280Header scriptBus [(true, []), (false, [1, 2])]).2.1 = 0 ∧
    (BME280_Read_UTPH bme280Header scriptBus
      [(true, []), (false, [1, 2, 3, 4, 5, 6, 7, 8])]).2.1 = { UT := 0, UP := 0, UH := 0 } :=
  ⟨((raw_reads_bus_failure bme280Header scriptBus [(false, [])]).1.2 (by decide)).2,
   ((raw_reads_bus_failure bme280Header scriptBus
      [(true, []), (false, [1, 2, 3])]).2.1.2 (by decide)).2,
   ((raw_reads_bus_failure bme280Header scriptBus
      [(true, []), (false, [1, 2])]).2.2.1.2 (by decide)).2,
   ((raw_reads_bus_failure bme280Header scriptBus
      [(true, []), (false, [1, 2, 3, 4, 5, 6, 7, 8])]).2.2.2.2 (by decide)).2⟩

/-! ### Raw reads: assembling the bytes -/

theorem or20_eq (a b c : Nat) (hb : b < 256) (hc : c < 256) :
    (a <<< 12) ||| (b <<< 4) ||| (c >>> 4) = a * 4096 + b * 16 + c / 16 := by
  have h1 : 2 ^ 4 * b < 2 ^ 12 := by omega
  have h2 : c / 16 < 2 ^ 4 := by omega
  have e1 := Nat.mul_add_lt_is_or h1 a
  have e2 := Nat.mul_add_lt_is_or h2 (256 * a + b)
  rw [Nat.shiftLeft_eq, Nat.shiftLeft_eq, Nat.shiftRight_eq_div_pow]
  have e3 : a * 2 ^ 12 = 2 ^ 12 * a := Nat.mul_comm _ _
  have e4 : b * 2 ^ 4 = 2 ^ 4 * b := Nat.mul_comm _ _
  have e5 : 2 ^ 12 * a + 2 ^ 4 * b = 2 ^ 4 * (256 * a + b) := by omega
  rw [e3, e4, ← e1, e5]
  norm_num at e2 ⊢
  rw [← e2]
  omega

theorem or16_eq (a b : Nat) (hb : b < 256) : (a <<< 8) ||| b = a * 256 + b := by
  have h1 : b < 2 ^ 8 := by omega
  have e1 := Nat.mul_add_lt_is_or h1 a
  rw [Nat.shiftLeft_eq, Nat.mul_comm, ← e1]

theorem raw20_eq (buf : List Nat) (i : Nat) (h0 : byteAt buf i < 256)
    (h1 : byteAt buf (i + 1) < 256) (h2 : byteAt buf (i + 2) < 256) :
    raw20 buf i = (byteAt buf i : Int) * 4096 + byteAt buf (i + 1) * 16 + byteAt buf (i + 2) / 16 ∧
    0 ≤ raw20 buf i ∧ raw20 buf i ≤ 1048575 := by
  unfold raw20
  rw [or20_eq _ _ _ h1 h2]
  unfold wrap32
  push_cast
  omega

theorem raw16_eq (buf : List Nat) (i : Nat) (h0 : byteAt buf i < 256)
    (h1 : byteAt buf (i + 1) < 256) :
    raw16 buf i = (byteAt buf i : Int) * 256 + byteAt buf (i + 1) ∧
    0 ≤ raw16 buf i ∧ raw16 buf i ≤ 65535 := by
  unfold raw16
  rw [or16_eq _ _ h1]
  unfold wrap32
  push_cast
  omega

theorem storeBytes3 (r x0 x1 x2 : Nat) (h0 : x0 < 256) (h1 : x1 < 256) (h2 : x2 < 256) :
    storeBytes [r, 0, 0] [x0, x1, x2] 3 = [x0, x1, x2] := by
  simp [storeBytes, List.range_succ]
  omega

theorem storeBytes2 (r x0 x1 : Nat) (h0 : x0 < 256) (h1 : x1 < 256) :
    storeBytes [r, 0] [x0, x1] 2 = [x0, x1] := by
  simp [storeBytes, List.range_succ]
  omega

theorem storeBytes8 (r x0 x1 x2 x3 x4 x5 x6 x7 : Nat) (h0 : x0 < 256) (h1 : x1 < 256)
    (h2 : x2 < 256) (h3 : x3 < 256) (h4 : x4 < 256) (h5 : x5 < 256) (h6 : x6 < 256)
    (h7 : x7 < 256) :
    storeBytes [r, 0, 0, 0, 0, 0, 0, 0] [x0, x1, x2, x3, x4, x5, x6, x7] 8
      = [x0, x1, x2, x3, x4, x5, x6, x7] := by
  simp [storeBytes, List.range_succ]
  omega

/-- C12: for all bytes in [0, 255], a successful read stores
`msb*4096 + lsb*16 + xlsb/16` (in [0, 2^20 - 1]) as raw pressure or temperature
and `msb*256 + lsb` (in [0, 65535]) as raw humidity; in `BME280_Read_UTPH`
pressure comes from bytes 0..2, temperature from bytes 3..5 and humidity from
bytes 6..7 of the burst. -/
theorem raw_reads_assemble {σ : Type} (H : Header) (bus : I2C σ) (b : σ)
    (x0 x1 x2 x3 x4 x5 x6 x7 : Nat) (h0 : x0 ≤ 255) (h1 : x1 ≤ 255) (h2 : x2 ≤ 255)
    (h3 : x3 ≤ 255) (h4 : x4 ≤ 255) (h5 : x5 ≤ 255) (h6 : x6 ≤ 255) (h7 : x7 ≤ 255) :
    ((bus.I2Cx_Write b [H.BME280_REG_PRESS_MSB] I2C_NOSTOP).1 = true →
      (bus.I2Cx_Read (bus.I2Cx_Write b [H.BME280_REG_PRESS_MSB] I2C_NOSTOP).2 3).1
        = (true, [x0, x1, x2]) →
      (BME280_Read_UP H bus b).1 = BME280_SUCCESS ∧
      (BME280_Read_UP H bus b).2.1 = (x0 : Int) * 4096 + x1 * 16 + x2 / 16) ∧
    ((bus.I2Cx_Write b [H.BME280_REG_TEMP_MSB] I2C_NOSTOP).1 = true →
      (bus.I2Cx_Read (bus.I2Cx_Write b [H.BME280_REG_TEMP_MSB] I2C_NOSTOP).2 3).1
        = (true, [x0, x1, x2]) →
      (BME280_Read_UT H bus b).1 = BME280_SUCCESS ∧
      (BME280_Read_UT H bus b).2.1 = (x0 : Int) * 4096 + x1 * 16 + x2 / 16) ∧
    ((bus.I2Cx_Write b [H.BME280_REG_HUM_MSB] I2C_NOSTOP).1 = true →
      (bus.I2Cx_Read (bus.I2Cx_Write b [H.BME280_REG_HUM_MSB] I2C_NOSTOP).2 2).1
        = (true, [x0, x1]) →
      (BME280_Read_UH H bus b).1 = BME280_SUCCESS ∧
      (BME280_Read_UH H bus b).2.1 = (x0 : Int) * 256 + x1) ∧
    ((bus.I2Cx_Write b [H.BME280_REG_PRESS_MSB] I2C_NOSTOP).1 = true →
      (bus.I2Cx_Read (bus.I2Cx_Write b [H.BME280_REG_PRESS_MSB] I2C_NOSTOP).2 8).1
        = (true, [x0, x1, x2, x3, x4, x5, x6, x7]) →
      (BME280_Read_UTPH H bus b).1 = BME280_SUCCESS ∧
      (BME280_Read_UTPH H bus b).2.1.UP = (x0 : Int) * 4096 + x1 * 16 + x2 / 16 ∧
      (BME280_Read_UTPH H bus b).2.1.UT = (x3 : Int) * 4096 + x4 * 16 + x5 / 16 ∧
      (BME280_Read_UTPH H bus b).2.1.UH = (x6 : Int) * 256 + x7) ∧
    (0 ≤ (x0 : Int) * 4096 + x1 * 16 + x2 / 16 ∧
      (x0 : Int) * 4096 + x1 * 16 + x2 / 16 ≤ 2 ^ 20 - 1) ∧
    (0 ≤ (x0 : Int) * 256 + x1 ∧ (x0 : Int) * 256 + x1 ≤ 65535) := by
  have k0 : x0 < 256 := by omega
  have k1 : x1 < 256 := by omega
  have k2 : x2 < 256 := by omega
  have k3 : x3 < 256 := by omega
  have k4 : x4 < 256 := by omega
  have k5 : x5 < 256 := by omega
  have k6 : x6 < 256 := by omega
  have k7 : x7 < 256 := by omega
  have r20 : 0 ≤ (x0 : Int) * 4096 + x1 * 16 + x2 / 16 ∧
      (x0 : Int) * 4096 + x1 * 16 + x2 / 16 ≤ 2 ^ 20 - 1 := by
    clear h3 h4 h5 h6 h7 k3 k4 k5 k6 k7
    norm_num
    omega
  have r16 : 0 ≤ (x0 : Int) * 256 + x1 ∧ (x0 : Int) * 256 + x1 ≤ 65535 := by
    clear h3 h4 h5 h6 h7 k3 k4 k5 k6 k7 r20
    omega
  have a3 := raw20_eq [x0, x1, x2] 0 k0 k1 k2
  have a2 := raw16_eq [x0, x1] 0 k0 k1
  have a80 := raw20_eq [x0, x1, x2, x3, x4, x5, x6, x7] 0 k0 k1 k2
  have a83 := raw20_eq [x0, x1, x2, x3, x4, x5, x6, x7] 3 k3 k4 k5
  have a86 := raw16_eq [x0, x1, x2, x3, x4, x5, x6, x7] 6 k6 k7
  simp only [byteAt, List.getD_cons_zero, List.getD_cons_succ, Nat.reduceAdd] at a3 a2 a80 a83 a86
  refine ⟨?_, ?_, ?_, ?_, ?_, ?_⟩
  · intro hw hr
    simp only [BME280_Read_UP, byteAt, List.getD_cons_zero, hw, hr, Bool.true_eq_false, if_false,
      if_true, storeBytes3 _ x0 x1 x2 k0 k1 k2, a3.1, and_self]
  · intro hw hr
    simp only [BME280_Read_UT, byteAt, List.getD_cons_zero, hw, hr, Bool.true_eq_false, if_false,
      if_true, storeBytes3 _ x0 x1 x2 k0 k1 k2, a3.1, and_self]
  · intro hw hr
    simp only [BME280_Read_UH, byteAt, List.getD_cons_zero, hw, hr, Bool.true_eq_false, if_false,
      if_true, storeBytes2 _ x0 x1 k0 k1, a2.1, and_self]
  · intro hw hr
    simp only [BME280_Read_UTPH, byteAt, List.getD_cons_zero, hw, hr, Bool.true_eq_false,
      if_false, if_true, storeBytes8 _ x0 x1 x2 x3 x4 x5 x6 x7 k0 k1 k2 k3 k4 k5 k6 k7, a80.1,
      a83.1, a86.1, and_self]
  · exact r20
  · exact r16

theorem raw_reads_assemble_witness :
    (BME280_Read_UP bme280Header scriptBus [(true, []), (true, [0x65, 0x5A, 0xC0])]).2.1
      = 0x65 * 4096 + 0x5A * 16 + 0xC0 / 16 ∧
    (BME280_Read_UT bme280Header scriptBus [(true, []), (true, [0x7E, 0xED, 0x00])]).2.1
      = 0x7E * 4096 + 0xED * 16 + 0x00 / 16 ∧
    (BME280_Read_UH bme280Header scriptBus [(true, []), (true, [0x75, 0x30])]).2.1
      = 0x75 * 256 + 0x30 ∧
    (BME280_Read_UTPH bme280Header scriptBus
      [(true, []), (true, [0x65, 0x5A, 0xC0, 0x7E, 0xED, 0x00, 0x75, 0x30])]).2.1.UT
      = 0x7E * 4096 + 0xED * 16 + 0x00 / 16 :=
  ⟨((raw_reads_assemble bme280Header scriptBus [(true, []), (true, [0x65, 0x5A, 0xC0])]
      0x65 0x5A 0xC0 0 0 0 0 0 (by decide) (by decide) (by decide) (by decide) (by decide)
      (by decide) (by decide) (by decide)).1 rfl rfl).2,
   ((raw_reads_assemble bme280Header scriptBus [(true, []), (true, [0x7E, 0xED, 0x00])]
      0x7E 0xED 0x00 0 0 0 0 0 (by decide) (by decide) (by decide) (by decide) (by decide)
      (by decide) (by decide) (by decide)).2.1 rfl rfl).2,
   ((raw_reads_assemble bme280Header scriptBus [(true, []), (true, [0x75, 0x30])]
      0x75 0x30 0 0 0 0 0 0 (by decide) (by decide) (by decide) (by decide) (by decide)
      (by decide) (by decide) (by decide)).2.2.1 rfl rfl).2,
   ((raw_reads_assemble bme280Header scriptBus
      [(true, []), (true, [0x65, 0x5A, 0xC0, 0x7E, 0xED, 0x00, 0x75, 0x30])]
      0x65 0x5A 0xC0 0x7E 0xED 0x00 0x75 0x30 (by decide) (by decide) (by decide) (by decide)
      (by decide) (by decide) (by decide) (by decide)).2.2.2.1 rfl rfl).2.2.1⟩

/-! ### Raw reads: the no-data sentinel is stored on success -/

theorem sentinel20_iff (x0 x1 x2 : Nat) (h0 : x0 < 256) (h1 : x1 < 256) (h2 : x2 < 256) :
    ((x0 : Int) * 4096 + x1 * 16 + x2 / 16 = 0x80000 ↔ x0 = 0x80 ∧ x1 = 0 ∧ x2 < 16) := by
  constructor
  · intro h
    omega
  · rintro ⟨rfl, rfl, h⟩
    omega

theorem sentinel16_iff (x0 x1 : Nat) (h0 : x0 < 256) (h1 : x1 < 256) :
    ((x0 : Int) * 256 + x1 = 0x8000 ↔ x0 = 0x80 ∧ x1 = 0) := by
  constructor
  · intro h
    omega
  · rintro ⟨rfl, rfl⟩
    rfl

/-- C9 (amended): on any bus, whenever the register-address write and the burst
read succeed, each raw-read operation returns `BME280_SUCCESS` whatever the
bytes are, and each field it stores equals the sentinel (`0x80000` for pressure
and temperature, `0x8000` for humidity) exactly when the bytes of that field
are the sentinel pattern (`0x80, 0x00, 0x0X`, resp. `0x80, 0x00`), field by
field in `BME280_Read_UTPH`; no-data is visible only in the stored value. -/
theorem raw_reads_sentinel_is_success {σ : Type} (H : Header) (bus : I2C σ) (b : σ)
    (x0 x1 x2 x3 x4 x5 x6 x7 : Nat) (h0 : x0 ≤ 255) (h1 : x1 ≤ 255) (h2 : x2 ≤ 255)
    (h3 : x3 ≤ 255) (h4 : x4 ≤ 255) (h5 : x5 ≤ 255) (h6 : x6 ≤ 255) (h7 : x7 ≤ 255) :
    ((bus.I2Cx_Write b [H.BME280_REG_PRESS_MSB] I2C_NOSTOP).1 = true →
      (bus.I2Cx_Read (bus.I2Cx_Write b [H.BME280_REG_PRESS_MSB] I2C_NOSTOP).2 3).1
        = (true, [x0, x1, x2]) →
      (BME280_Read_UP H bus b).1 = BME280_SUCCESS ∧
      ((BME280_Read_UP H bus b).2.1 = 0x80000 ↔ x0 = 0x80 ∧ x1 = 0 ∧ x2 < 16)) ∧
    ((bus.I2Cx_Write b [H.BME280_REG_TEMP_MSB] I2C_NOSTOP).1 = true →
      (bus.I2Cx_Read (bus.I2Cx_Write b [H.BME280_REG_TEMP_MSB] I2C_NOSTOP).2 3).1
        = (true, [x0, x1, x2]) →
      (BME280_Read_UT H bus b).1 = BME280_SUCCESS ∧
      ((BME280_Read_UT H bus b).2.1 = 0x80000 ↔ x0 = 0x80 ∧ x1 = 0 ∧ x2 < 16)) ∧
    ((bus.I2Cx_Write b [H.BME280_REG_HUM_MSB] I2C_NOSTOP).1 = true →
      (bus.I2Cx_Read (bus.I2Cx_Write b [H.BME280_REG_HUM_MSB] I2C_NOSTOP).2 2).1
        = (true, [x0, x1]) →
      (BME280_Read_UH H bus b).1 = BME280_SUCCESS ∧
      ((BME280_Read_UH H bus b).2.1 = 0x8000 ↔ x0 = 0x80 ∧ x1 = 0)) ∧
    ((bus.I2Cx_Write b [H.BME280_REG_PRESS_MSB] I2C_NOSTOP).1 = true →
      (bus.I2Cx_Read (bus.I2Cx_Write b [H.BME280_REG_PRESS_MSB] I2C_NOSTOP).2 8).1
        = (true, [x0, x1, x2, x3, x4, x5, x6, x7]) →
      (BME280_Read_UTPH H bus b).1 = BME280_SUCCESS ∧
      ((BME280_Read_UTPH H bus b).2.1.UP = 0x80000 ↔ x0 = 0x80 ∧ x1 = 0 ∧ x2 < 16) ∧
      ((BME280_Read_UTPH H bus b).2.1.UT = 0x80000 ↔ x3 = 0x80 ∧ x4 = 0 ∧ x5 < 16) ∧
      ((BME280_Read_UTPH H bus b).2.1.UH = 0x8000 ↔ x6 = 0x80 ∧ x7 = 0)) := by
  have k0 : x0 < 256 := by omega
  have k1 : x1 < 256 := by omega
  have k2 : x2 < 256 := by omega
  have k3 : x3 < 256 := by omega
  have k4 : x4 < 256 := by omega
  have k5 : x5 < 256 := by omega
  have k6 : x6 < 256 := by omega
  have k7 : x7 < 256 := by omega
  have s20 := sentinel20_iff x0 x1 x2 k0 k1 k2
  have s20t := sentinel20_iff x3 x4 x5 k3 k4 k5
  have s16 := sentinel16_iff x0 x1 k0 k1
  have s16h := sentinel16_iff x6 x7 k6 k7
  have a3 := raw20_eq [x0, x1, x2] 0 k0 k1 k2
  have a2 := raw16_eq [x0, x1] 0 k0 k1
  have a80 := raw20_eq [x0, x1, x2, x3, x4, x5, x6, x7] 0 k0 k1 k2
  have a83 := raw20_eq [x0, x1, x2, x3, x4, x5, x6, x7] 3 k3 k4 k5
  have a86 := raw16_eq [x0, x1, x2, x3, x4, x5, x6, x7] 6 k6 k7
  simp only [byteAt, List.getD_cons_zero, List.getD_cons_succ, Nat.reduceAdd] at a3 a2 a80 a83 a86
  refine ⟨?_, ?_, ?_, ?_⟩
  · intro hw hr
    simp only [BME280_Read_UP, byteAt, List.getD_cons_zero, hw, hr, Bool.true_eq_false, if_false,
      if_true, storeBytes3 _ x0 x1 x2 k0 k1 k2, a3.1, true_and]
    exact s20
  · intro hw hr
    simp only [BME280_Read_UT, byteAt, List.getD_cons_zero, hw, hr, Bool.true_eq_false, if_false,
      if_true, storeBytes3 _ x0 x1 x2 k0 k1 k2, a3.1, true_and]
    exact s20
  · intro hw hr
    simp only [BME280_Read_UH, byteAt, List.getD_cons_zero, hw, hr, Bool.true_eq_false, if_false,
      if_true, storeBytes2 _ x0 x1 k0 k1, a2.1, true_and]
    exact s16
  · intro hw hr
    simp only [BME280_Read_UTPH, byteAt, List.getD_cons_zero, hw, hr, Bool.true_eq_false,
      if_false, if_true, storeBytes8 _ x0 x1 x2 x3 x4 x5 x6 x7 k0 k1 k2 k3 k4 k5 k6 k7, a80.1,
      a83.1, a86.1, true_and]
    exact ⟨s20, s20t, s16h⟩

theorem raw_reads_sentinel_is_success_witness :
    (BME280_Read_UP bme280Header scriptBus [(true, []), (true, [0x80, 0x00, 5])]).2.1
      = 0x80000 ∧
    (BME280_Read_UT bme280Header scriptBus [(true, []), (true, [0x80, 0x00, 5])]).2.1
      = 0x80000 ∧
    (BME280_Read_UH bme280Header scriptBus [(true, []), (true, [0x80, 0x00])]).2.1
      = 0x8000 ∧
    (BME280_Read_UTPH bme280Header scriptBus
        [(true, []), (true, [0x65, 0x5A, 0xC0, 0x7E, 0xED, 0x00, 0x80, 0x00])]).1
      = BME280_SUCCESS ∧
    (BME280_Read_UTPH bme280Header scriptBus
        [(true, []), (true, [0x65, 0x5A, 0xC0, 0x7E, 0xED, 0x00, 0x80, 0x00])]).2.1.UH
      = 0x8000 :=
  ⟨(((raw_reads_sentinel_is_success bme280Header scriptBus
      [(true, []), (true, [0x80, 0x00, 5])] 0x80 0x00 5 0 0 0 0 0 (by decide) (by decide)
      (by decide) (by decide) (by decide) (by decide) (by decide) (by decide)).1 rfl rfl).2).2
      (by decide),
   (((raw_reads_sentinel_is_success bme280Header scriptBus
      [(true, []), (true, [0x80, 0x00, 5])] 0x80 0x00 5 0 0 0 0 0 (by decide) (by decide)
      (by decide) (by decide) (by decide) (by decide) (by decide) (by decide)).2.1 rfl rfl).2).2
      (by decide),
   (((raw_reads_sentinel_is_success bme280Header scriptBus
      [(true, []), (true, [0x80, 0x00])] 0x80 0x00 0 0 0 0 0 0 (by decide) (by decide)
      (by decide) (by decide) (by decide) (by decide) (by decide) (by decide)).2.2.1 rfl rfl).2).2
      (by decide),
   ((raw_reads_sentinel_is_success bme280Header scriptBus
      [(true, []), (true, [0x65, 0x5A, 0xC0, 0x7E, 0xED, 0x00, 0x80, 0x00])]
      0x65 0x5A 0xC0 0x7E 0xED 0x00 0x80 0x00 (by decide) (by decide) (by decide) (by decide)
      (by decide) (by decide) (by decide) (by decide)).2.2.2 rfl rfl).1,
   (((raw_reads_sentinel_is_success bme280Header scriptBus
      [(true, []), (true, [0x65, 0x5A, 0xC0, 0x7E, 0xED, 0x00, 0x80, 0x00])]
      0x65 0x5A 0xC0 0x7E 0xED 0x00 0x80 0x00 (by decide) (by decide) (by decide) (by decide)
      (by decide) (by decide) (by decide) (by decide)).2.2.2 rfl rfl).2.2.2).2 (by decide)⟩

/-! ### Compensation on an uncalibrated driver -/

/-- C13 (as stated, refuted): after a calibration read that returns
`BME280_ERROR`, and also on the power-on state, `BME280_CalcT`, `BME280_CalcP`
and `BME280_CalcH` return computed values, not an error. -/
theorem compensation_uncalibrated_counterexample :
    (BME280_Read_Calibration bme280Header scriptBus driverReset scriptCalibAborts).1
      = BME280_ERROR ∧
    (BME280_CalcT (BME280_Read_Calibration bme280Header scriptBus driverReset
      scriptCalibAborts).2.1 519888).1 = 2508 ∧
    BME280_CalcP (BME280_CalcT (BME280_Read_Calibration bme280Header scriptBus driverReset
      scriptCalibAborts).2.1 519888).2 415148 = some 25767233 ∧
    BME280_CalcH (BME280_CalcT (BME280_Read_Calibration bme280Header scriptBus driverReset
      scriptCalibAborts).2.1 519888).2 30000 = 0 ∧
    (BME280_CalcT driverReset 519888).1 = 0 ∧
    BME280_CalcP driverReset 415148 = some 0 ∧
    BME280_CalcH driverReset 30000 = 0 := by
  refine ⟨?_, ?_, ?_, ?_, ?_, ?_, ?_⟩ <;> decide

/-- C13 (amended): the compensation routines make no calibration check and have
no error result.  After a `BME280_Read_Calibration` that fails at its first bus
write they return exactly what they return on the state before it, and on every
driver state each returns the value of its formula: `BME280_CalcT` the rounded
fine temperature, `BME280_CalcP` 0 when `v1 = 0` and the value of lines 346 to
352 otherwise (never a fault), `BME280_CalcH` the clamped and shifted `vx1`. -/
theorem compensation_ignores_calibration_status {σ : Type} (H : Header) (bus : I2C σ)
    (s : Driver) (b : σ) (UT UP UH : Int)
    (hfail : (bus.I2Cx_Write b [H.BME280_REG_CALIB00] I2C_NOSTOP).1 = false) :
    (BME280_Read_Calibration H bus s b).1 = BME280_ERROR ∧
    BME280_CalcT (BME280_Read_Calibration H bus s b).2.1 UT = BME280_CalcT s UT ∧
    BME280_CalcP (BME280_Read_Calibration H bus s b).2.1 UP = BME280_CalcP s UP ∧
    BME280_CalcH (BME280_Read_Calibration H bus s b).2.1 UH = BME280_CalcH s UH ∧
    BME280_CalcT s UT =
      (sar (add32 (mul32 (add32 (CalcT_line322 s.cal_param UT) (CalcT_line323 s.cal_param UT)) 5)
        128) 8,
       { s with t_fine := add32 (CalcT_line322 s.cal_param UT) (CalcT_line323 s.cal_param UT) }) ∧
    BME280_CalcP s UP ≠ none ∧
    BME280_CalcP s UP = some (if CalcP_v1 s = 0 then 0 else CalcP_lines346_352 s UP) ∧
    BME280_CalcH s UH = toU32 (sar (min (max (CalcH_vx1 s UH) 0) 419430400) 12) := by
  have hs : (BME280_Read_Calibration H bus s b).2.1 = s := by
    simp only [BME280_Read_Calibration, byteAt, List.getD_cons_zero, hfail, ne_eq,
      Bool.false_eq_true, not_false_eq_true, if_true]
  have hr : (BME280_Read_Calibration H bus s b).1 = BME280_ERROR := by
    simp only [BME280_Read_Calibration, byteAt, List.getD_cons_zero, hfail, ne_eq,
      Bool.false_eq_true, not_false_eq_true, if_true]
  refine ⟨hr, by rw [hs], by rw [hs], by rw [hs], rfl, ?_, ?_, ?_⟩
  · by_cases h : CalcP_v1 s = 0
    · simp [BME280_CalcP, h]
    · simp [BME280_CalcP, h, div64]
  · by_cases h : CalcP_v1 s = 0
    · simp [BME280_CalcP, h]
    · simp [BME280_CalcP, CalcP_lines346_352, h, div64]
  · unfold BME280_CalcH
    generalize CalcH_vx1 s UH = v
    simp only
    congr 2
    split_ifs <;> omega

theorem compensation_ignores_calibration_status_witness :
    BME280_CalcT (BME280_Read_Calibration bme280Header scriptBus ⟨calExample, 0⟩
      [(false, [])]).2.1 519888 = BME280_CalcT ⟨calExample, 0⟩ 519888 :=
  (compensation_ignores_calibration_status bme280Header scriptBus ⟨calExample, 0⟩ [(false, [])]
    519888 415148 30000 rfl).2.1

/-! ### Temperature: inputs of the computation -/

/-- C14: `BME280_CalcT` is a function of `dig_T1`, `dig_T2`, `dig_T3` and `UT`
only: two driver states that agree on these three constants give the same
returned temperature and the same stored fine temperature, whatever their
previous fine temperature and their pressure and humidity constants. -/
theorem BME280_CalcT_depends_on_T_only (s1 s2 : Driver) (UT : Int)
    (h1 : s1.cal_param.dig_T1 = s2.cal_param.dig_T1)
    (h2 : s1.cal_param.dig_T2 = s2.cal_param.dig_T2)
    (h3 : s1.cal_param.dig_T3 = s2.cal_param.dig_T3) :
    (BME280_CalcT s1 UT).1 = (BME280_CalcT s2 UT).1 ∧
    (BME280_CalcT s1 UT).2.t_fine = (BME280_CalcT s2 UT).2.t_fine := by
  simp only [BME280_CalcT, CalcT_line322, CalcT_line323, h1, h2, h3, and_self]

theorem BME280_CalcT_depends_on_T_only_witness :
    (BME280_CalcT ⟨calExample, 0⟩ 519888).1 = (BME280_CalcT driverOther 519888).1 ∧
    (BME280_CalcT ⟨calExample, 0⟩ 519888).2.t_fine = (BME280_CalcT driverOther 519888).2.t_fine :=
  BME280_CalcT_depends_on_T_only ⟨calExample, 0⟩ driverOther 519888 rfl rfl rfl

/-! ### Calibration read: unpacking the humidity block -/

theorem ldiff_low_ones (m n y : Nat) (hy : y < 2 ^ n) :
    Nat.ldiff (2 ^ n * m + (2 ^ n - 1)) y = 2 ^ n * m + (2 ^ n - (y + 1)) := by
  have hpos : 0 < 2 ^ n := Nat.two_pow_pos n
  have h1 : 2 ^ n - 1 < 2 ^ n := by omega
  have h2 : 2 ^ n - (y + 1) < 2 ^ n := by omega
  apply Nat.eq_of_testBit_eq
  intro j
  rw [Nat.testBit_ldiff, Nat.testBit_mul_pow_two_add m h1, Nat.testBit_mul_pow_two_add m h2,
    Nat.testBit_two_pow_sub_one, Nat.testBit_two_pow_sub_succ hy]
  by_cases hj : j < n
  · simp [hj]
  · have hyj : y.testBit j = false :=
      Nat.testBit_lt_two_pow (lt_of_lt_of_le hy (Nat.pow_le_pow_right (by norm_num) (by omega)))
    simp [hj, hyj]

theorem lor_shift_add (k : Int) (n y : Nat) (hy : y < 2 ^ n) :
    Int.lor (k * 2 ^ n) (y : Int) = k * 2 ^ n + y := by
  have hpos : 0 < 2 ^ n := Nat.two_pow_pos n
  cases k with
  | ofNat m =>
    have e : (Int.ofNat m) * 2 ^ n = ((2 ^ n * m : Nat) : Int) := by
      push_cast
      rw [Int.ofNat_eq_coe, mul_comm]
    rw [e]
    show ((2 ^ n * m ||| y : Nat) : Int) = _
    rw [← Nat.mul_add_lt_is_or hy]
    push_cast
    ring
  | negSucc m =>
    have e : (Int.negSucc m) * 2 ^ n = Int.negSucc (2 ^ n * m + (2 ^ n - 1)) := by
      rw [Int.negSucc_eq, Int.negSucc_eq]
      have : ((2 ^ n * m + (2 ^ n - 1) : Nat) : Int) = 2 ^ n * m + (2 ^ n - 1) := by
        push_cast [Nat.cast_sub hpos]
        ring
      rw [this]
      ring
    rw [e]
    show Int.negSucc (Nat.ldiff (2 ^ n * m + (2 ^ n - 1)) y) = _
    rw [ldiff_low_ones m n y hy, Int.negSucc_eq, Int.negSucc_eq]
    have h3 : ((2 ^ n * m + (2 ^ n - (y + 1)) : Nat) : Int) = 2 ^ n * m + (2 ^ n - (y + 1)) := by
      push_cast [Nat.cast_sub (show y + 1 ≤ 2 ^ n by omega)]
      ring
    have h4 : ((2 ^ n * m + (2 ^ n - 1) : Nat) : Int) = 2 ^ n * m + (2 ^ n - 1) := by
      push_cast [Nat.cast_sub hpos]
      ring
    rw [h3, h4]
    ring

theorem storeBytes7 (r x0 x1 x2 x3 x4 x5 x6 : Nat) (h0 : x0 < 256) (h1 : x1 < 256)
    (h2 : x2 < 256) (h3 : x3 < 256) (h4 : x4 < 256) (h5 : x5 < 256) (h6 : x6 < 256) :
    storeBytes [r, 0, 0, 0, 0, 0, 0] [x0, x1, x2, x3, x4, x5, x6] 7
      = [x0, x1, x2, x3, x4, x5, x6] := by
  simp [storeBytes, List.range_succ]
  omega

theorem unpack_H2 (x0 x1 : Nat) (h0 : x0 < 256) :
    wrap16 (Int.lor (wrap8 (x1 : Int) * 2 ^ 8) (x0 : Int)) = wrap8 x1 * 256 + x0 := by
  rw [lor_shift_add _ 8 x0 (by omega)]
  unfold wrap16 wrap8
  omega

theorem unpack_H4 (x3 x4 : Nat) :
    wrap16 (Int.lor (wrap8 (x3 : Int) * 2 ^ 4) ((x4 &&& 0x0f : Nat) : Int))
      = wrap8 x3 * 16 + ((x4 % 16 : Nat) : Int) := by
  have e : x4 &&& 0x0f = x4 % 16 := Nat.and_pow_two_sub_one_eq_mod x4 4
  rw [e, lor_shift_add _ 4 (x4 % 16) (by omega)]
  unfold wrap16 wrap8
  omega

theorem unpack_H5 (x4 x5 : Nat) (h4 : x4 < 256) :
    wrap16 (Int.lor (wrap8 (x5 : Int) * 2 ^ 4) ((x4 >>> 4 : Nat) : Int))
      = wrap8 x5 * 16 + ((x4 / 16 : Nat) : Int) := by
  have e : x4 >>> 4 = x4 / 16 := Nat.shiftRight_eq_div_pow x4 4
  rw [e, lor_shift_add _ 4 (x4 / 16) (by omega)]
  unfold wrap16 wrap8
  omega

/-- C15: when the checked bus operations succeed and the 7-byte block is
`x0..x6` (bytes in [0, 255]), `BME280_Read_Calibration` stores
`dig_H4 = signext8(x3)*16 + (x4 mod 16)`, `dig_H5 = signext8(x5)*16 + x4/16`,
both in [-2048, 2047], and `dig_H2 = signext8(x1)*256 + x0`, where `signext8` is
`wrap8`. -/
theorem Read_Calibration_unpack {σ : Type} (H : Header) (bus : I2C σ) (s : Driver)
    (b b1 b2 b3 b4 b5 b6 : σ) (d1 d4 : List Nat) (st3 st4 : Bool)
    (x0 x1 x2 x3 x4 x5 x6 : Nat)
    (h0 : x0 ≤ 255) (h1 : x1 ≤ 255) (h2 : x2 ≤ 255) (h3 : x3 ≤ 255) (h4 : x4 ≤ 255)
    (h5 : x5 ≤ 255) (h6 : x6 ≤ 255)
    (w1 : bus.I2Cx_Write b [H.BME280_REG_CALIB00] I2C_NOSTOP = (true, b1))
    (r1 : bus.I2Cx_Read b1 24 = ((true, d1), b2))
    (w2 : bus.I2Cx_Write b2 [H.BME280_REG_CALIB25] I2C_NOSTOP = (st3, b3))
    (r2 : bus.I2Cx_Read b3 1 = ((st4, d4), b4))
    (w3 : bus.I2Cx_Write b4 [H.BME280_REG_CALIB26] I2C_NOSTOP = (true, b5))
    (r3 : bus.I2Cx_Read b5 7 = ((true, [x0, x1, x2, x3, x4, x5, x6]), b6)) :
    (BME280_Read_Calibration H bus s b).1 = BME280_SUCCESS ∧
    (BME280_Read_Calibration H bus s b).2.1.cal_param.dig_H4
      = wrap8 x3 * 16 + ((x4 % 16 : Nat) : Int) ∧
    (BME280_Read_Calibration H bus s b).2.1.cal_param.dig_H5
      = wrap8 x5 * 16 + ((x4 / 16 : Nat) : Int) ∧
    (BME280_Read_Calibration H bus s b).2.1.cal_param.dig_H2 = wrap8 x1 * 256 + x0 ∧
    (-2048 ≤ (BME280_Read_Calibration H bus s b).2.1.cal_param.dig_H4 ∧
      (BME280_Read_Calibration H bus s b).2.1.cal_param.dig_H4 ≤ 2047) ∧
    (-2048 ≤ (BME280_Read_Calibration H bus s b).2.1.cal_param.dig_H5 ∧
      (BME280_Read_Calibration H bus s b).2.1.cal_param.dig_H5 ≤ 2047) ∧
    (-32768 ≤ (BME280_Read_Calibration H bus s b).2.1.cal_param.dig_H2 ∧
      (BME280_Read_Calibration H bus s b).2.1.cal_param.dig_H2 ≤ 32767) ∧
    wrap8 (x3 : Int) = (if x3 < 128 then (x3 : Int) else x3 - 256) := by
  have k0 : x0 < 256 := by omega
  have k1 : x1 < 256 := by omega
  have k2 : x2 < 256 := by omega
  have k3 : x3 < 256 := by omega
  have k4 : x4 < 256 := by omega
  have k5 : x5 < 256 := by omega
  have k6 : x6 < 256 := by omega
  have hs := storeBytes7 H.BME280_REG_CALIB26 x0 x1 x2 x3 x4 x5 x6 k0 k1 k2 k3 k4 k5 k6
  have e2 := unpack_H2 x0 x1 k0
  have e4 := unpack_H4 x3 x4
  have e5 := unpack_H5 x4 x5 k4
  have f4 : (BME280_Read_Calibration H bus s b).2.1.cal_param.dig_H4
      = wrap8 x3 * 16 + ((x4 % 16 : Nat) : Int) := by
    simp only [BME280_Read_Calibration, BME280_ReadReg, byteAt, List.getD_cons_zero,
      List.getD_cons_succ, List.set_cons_zero, w1, r1, w2, r2, w3, r3, ne_eq, not_true_eq_false,
      if_false, hs, e4]
  have f5 : (BME280_Read_Calibration H bus s b).2.1.cal_param.dig_H5
      = wrap8 x5 * 16 + ((x4 / 16 : Nat) : Int) := by
    simp only [BME280_Read_Calibration, BME280_ReadReg, byteAt, List.getD_cons_zero,
      List.getD_cons_succ, List.set_cons_zero, w1, r1, w2, r2, w3, r3, ne_eq, not_true_eq_false,
      if_false, hs, e5]
  have f2 : (BME280_Read_Calibration H bus s b).2.1.cal_param.dig_H2
      = wrap8 x1 * 256 + x0 := by
    simp only [BME280_Read_Calibration, BME280_ReadReg, byteAt, List.getD_cons_zero,
      List.getD_cons_succ, List.set_cons_zero, w1, r1, w2, r2, w3, r3, ne_eq, not_true_eq_false,
      if_false, hs, e2]
  have f1 : (BME280_Read_Calibration H bus s b).1 = BME280_SUCCESS := by
    simp only [BME280_Read_Calibration, BME280_ReadReg, byteAt, List.getD_cons_zero,
      List.getD_cons_succ, List.set_cons_zero, w1, r1, w2, r2, w3, r3, ne_eq, not_true_eq_false,
      if_false]
  refine ⟨f1, f4, f5, f2, ?_, ?_, ?_, ?_⟩
  · rw [f4]; unfold wrap8; omega
  · rw [f5]; unfold wrap8; omega
  · rw [f2]; unfold wrap8; omega
  · unfold wrap8; split_ifs <;> omega

theorem Read_Calibration_unpack_witness :
    (BME280_Read_Calibration bme280Header scriptBus driverReset
      scriptCalibOk).2.1.cal_param.dig_H5 = wrap8 0x80 * 16 + ((0xA3 / 16 : Nat) : Int) :=
  (Read_Calibration_unpack bme280Header scriptBus driverReset scriptCalibOk
    (scriptCalibOk.drop 1) (scriptCalibOk.drop 2) (scriptCalibOk.drop 3)
    (scriptCalibOk.drop 4) (scriptCalibOk.drop 5) (scriptCalibOk.drop 6)
    (calImage calExample) [75] true true 0x69 0x81 0x00 0xF5 0xA3 0x80 0x1E
    (by decide) (by decide) (by decide) (by decide) (by decide) (by decide) (by decide)
    rfl rfl rfl rfl rfl rfl).2.2.1

/-! ### Pa to mmHg: the fraction -/

/-- C16: for every 13-bit fraction `x` the expression `(x * 122070) / 1000000`
of `BME280_Pa_to_mmHg` never exceeds `floor(1000*x/8192)`, is smaller than it by
at most 1, and `x * 122070` fits 32 bits; the two differ at `x = 1024`. -/
theorem mmHgMilli_error (x : Nat) (hx : x ≤ 8191) :
    x * 122070 < 4294967296 ∧
    mmHgMilli x = x * 122070 / 1000000 ∧
    mmHgMilli x ≤ 1000 * x / 8192 ∧
    1000 * x / 8192 ≤ mmHgMilli x + 1 ∧
    (∀ (k P : Nat), Pa_to_mmHg_with k P =
      ((((((P % 4294967296) * k) % 18446744073709551616) / 2 ^ 28) % 4294967296 * 1000)
          % 4294967296
        + mmHgMilli ((((((P % 4294967296) * k) % 18446744073709551616) % 4294967296) * 2 ^ 4)
            % 4294967296 / 2 ^ 19)) % 4294967296) ∧
    mmHgMilli 1024 = 124 ∧ 1000 * 1024 / 8192 = 125 := by
  have e0 : x * 122070 % 4294967296 = x * 122070 := Nat.mod_eq_of_lt (by omega)
  have a1 : x * 122070 / 1000000 * 1000000 ≤ x * 122070 := Nat.div_mul_le_self _ _
  have a2 : x * 122070 < (x * 122070 / 1000000 + 1) * 1000000 := by
    have := Nat.lt_mul_div_succ (x * 122070) (show 0 < 1000000 by norm_num)
    omega
  have a3 : x * 122070 / 1000000 ≤ 999 := by omega
  refine ⟨by omega, ?_, ?_, ?_, fun k P => rfl, by decide, by decide⟩
  · unfold mmHgMilli
    rw [e0]
  · unfold mmHgMilli
    rw [e0]
    exact (Nat.le_div_iff_mul_le (by norm_num)).2 (by omega)
  · unfold mmHgMilli
    rw [e0]
    exact Nat.le_of_lt_succ ((Nat.div_lt_iff_lt_mul (by norm_num)).2 (by omega))

theorem mmHgMilli_error_witness :
    mmHgMilli 8191 ≤ 1000 * 8191 / 8192 :=
  (mmHgMilli_error 8191 (by decide)).2.2.1

/-! ### Pressure and humidity: frame -/

theorem CalcP_exec_eq (s : Driver) (UP l0 : Int) :
    BME280_CalcP_exec s UP l0 = (BME280_CalcP s UP).map fun r => (r, s) := by
  simp only [BME280_CalcP_exec, BME280_CalcP, CalcP_v1, CalcP_v2]
  split_ifs with h
  · rfl
  · cases hd : div64 (mul64 (sub64 (shl64 (sub32 1048576 UP) 31)
        (add64 (add64 (mul64 (mul64 (sub64 (wrap64 s.t_fine) 128000)
          (sub64 (wrap64 s.t_fine) 128000)) (wrap64 s.cal_param.dig_P6))
          (shl64 (mul64 (sub64 (wrap64 s.t_fine) 128000) (wrap64 s.cal_param.dig_P5)) 17))
          (shl64 (wrap64 s.cal_param.dig_P4) 35))) 3125)
        (sar (mul64 (add64 (shl64 1 47)
          (add64 (sar (mul64 (mul64 (sub64 (wrap64 s.t_fine) 128000)
            (sub64 (wrap64 s.t_fine) 128000)) (wrap64 s.cal_param.dig_P3)) 8)
            (shl64 (mul64 (sub64 (wrap64 s.t_fine) 128000) (wrap64 s.cal_param.dig_P2)) 12)))
          (wrap64 s.cal_param.dig_P1)) 33) <;> rfl

theorem CalcH_exec_eq (s : Driver) (UH l0 : Int) :
    BME280_CalcH_exec s UH l0 = (BME280_CalcH s UH, s) := by
  rfl

/-- C17: executed statement by statement, `BME280_CalcP` and `BME280_CalcH`
end with the fine temperature and the calibration they started with and return
the value of their formula; after `BME280_CalcT`, pressure then humidity gives
the same two values and the same final state as humidity then pressure, and a
repeated call with the same raw input returns the same value, whatever the
initial contents of the locals. -/
theorem CalcP_CalcH_frame (s : Driver) (UT UP UH l0 l1 : Int) :
    (∀ r s2, BME280_CalcP_exec s UP l0 = some (r, s2) →
      s2.t_fine = s.t_fine ∧ s2.cal_param = s.cal_param ∧ BME280_CalcP s UP = some r) ∧
    ((BME280_CalcH_exec s UH l0).2.t_fine = s.t_fine ∧
      (BME280_CalcH_exec s UH l0).2.cal_param = s.cal_param ∧
      (BME280_CalcH_exec s UH l0).1 = BME280_CalcH s UH) ∧
    BME280_CalcP_exec s UP l0 ≠ none ∧
    CalcP_then_CalcH (BME280_CalcT s UT).2 UP UH l0
      = CalcH_then_CalcP (BME280_CalcT s UT).2 UP UH l0 ∧
    CalcP_then_CalcH (BME280_CalcT s UT).2 UP UH l0
      = (BME280_CalcP (BME280_CalcT s UT).2 UP).map
          (fun p => (p, BME280_CalcH (BME280_CalcT s UT).2 UH, (BME280_CalcT s UT).2)) ∧
    ((BME280_CalcP_exec s UP l0).bind fun rp => BME280_CalcP_exec rp.2 UP l1)
      = BME280_CalcP_exec s UP l0 ∧
    BME280_CalcH_exec (BME280_CalcH_exec s UH l0).2 UH l1 = BME280_CalcH_exec s UH l0 := by
  have hP : ∀ (t : Driver) (l : Int),
      BME280_CalcP_exec t UP l = (BME280_CalcP t UP).map fun r => (r, t) :=
    fun t l => CalcP_exec_eq t UP l
  have hH : ∀ (t : Driver) (l : Int), BME280_CalcH_exec t UH l = (BME280_CalcH t UH, t) :=
    fun t l => CalcH_exec_eq t UH l
  have hsome : ∀ t : Driver, BME280_CalcP t UP ≠ none := by
    intro t
    by_cases h : CalcP_v1 t = 0
    · simp [BME280_CalcP, h]
    · simp [BME280_CalcP, h, div64]
  refine ⟨?_, ?_, ?_, ?_, ?_, ?_, ?_⟩
  · intro r s2 h
    rw [hP] at h
    cases hp : BME280_CalcP s UP with
    | none => rw [hp] at h; cases h
    | some v =>
      rw [hp] at h
      simp only [Option.map_some', Option.some.injEq, Prod.mk.injEq] at h
      obtain ⟨h1, h2⟩ := h
      subst h1 h2
      exact ⟨rfl, rfl, rfl⟩
  · rw [hH]
    exact ⟨rfl, rfl, rfl⟩
  · rw [hP]
    cases hp : BME280_CalcP s UP with
    | none => exact absurd hp (hsome s)
    | some v => simp
  · generalize (BME280_CalcT s UT).2 = s1
    simp only [CalcP_then_CalcH, CalcH_then_CalcP, hP, hH]
    generalize BME280_CalcP s1 UP = o
    cases o <;> simp
  · generalize (BME280_CalcT s UT).2 = s1
    simp only [CalcP_then_CalcH, hP, hH]
    generalize BME280_CalcP s1 UP = o
    cases o <;> simp
  · simp only [hP]
    cases hp : BME280_CalcP s UP with
    | none => simp
    | some v => simp [hp]
  · simp only [hH]

theorem CalcP_CalcH_frame_witness :
    BME280_CalcP ⟨calExample, 128422⟩ 415148 = some 25767233 :=
  ((CalcP_CalcH_frame ⟨calExample, 128422⟩ 519888 415148 30000 0 7).1 25767233
    ⟨calExample, 128422⟩ (by decide)).2.2

/-! ### Pa to mmHg: closed form and monotonicity -/

theorem frac_bits (p : Nat) :
    p % 4294967296 * 16 % 4294967296 / 524288 = p / 32768 % 8192 := by
  have h3 : p % 4294967296 % 268435456 = p % 268435456 :=
    Nat.mod_mod_of_dvd p (by norm_num)
  generalize p % 4294967296 = lo at h3
  have h1 : lo * 16 % 4294967296 = 16 * (lo % 268435456) := by omega
  have h2 : 16 * (lo % 268435456) / 524288 = lo % 268435456 / 32768 := by omega
  have h4 : p % 268435456 / 32768 = p / 32768 % 8192 := by omega
  rw [h1, h2, h3, h4]

theorem Pa_to_mmHg_eq (P : Nat) (hP : P < 4294967296) :
    BME280_Pa_to_mmHg P =
      1000 * (P * 7865 / 268435456) + (P * 7865 / 32768 % 8192) * 122070 / 1000000 ∧
    (P * 7865 / 32768 % 8192) * 122070 / 1000000 ≤ 999 := by
  have e0 : P % 4294967296 = P := Nat.mod_eq_of_lt hP
  have e1 : P * 7865 % 18446744073709551616 = P * 7865 := Nat.mod_eq_of_lt (by omega)
  have hq : P * 7865 / 268435456 ≤ 125839 := by omega
  have e2 : P * 7865 / 268435456 % 4294967296 = P * 7865 / 268435456 :=
    Nat.mod_eq_of_lt (by omega)
  have e2b : P * 7865 / 268435456 * 1000 % 4294967296 = P * 7865 / 268435456 * 1000 :=
    Nat.mod_eq_of_lt (by omega)
  have e3 := frac_bits (P * 7865)
  have hf : P * 7865 / 32768 % 8192 ≤ 8191 := by omega
  generalize P * 7865 / 32768 % 8192 = fr at e3 hf
  have e4 : fr * 122070 % 4294967296 = fr * 122070 := Nat.mod_eq_of_lt (by omega)
  have ht : fr * 122070 / 1000000 ≤ 999 := by omega
  refine ⟨?_, ht⟩
  simp only [BME280_Pa_to_mmHg, Pa_to_mmHg_with, BME_MMHG_Q0_20, Nat.reducePow, e0, e1, e2, e2b,
    e3, e4]
  generalize fr * 122070 / 1000000 = t at ht
  generalize P * 7865 / 268435456 = q at hq
  omega

/-- C18: with `BME_MMHG_Q0_20 = 7865`, for every unsigned 32-bit `P`,
`BME280_Pa_to_mmHg P = 1000 * floor(P*7865 / 2^28) + t` with
`t = ((floor(P*7865 / 2^15) mod 8192) * 122070) / 1000000` in [0, 999]; the
64-bit product, the cast of the integer part, both multiplications and the
final sum stay below their width, the pair `<< 4`, `>> 19` extracts bits
15..27, and the function is monotonically non-decreasing in `P`. -/
theorem BME280_Pa_to_mmHg_closed_form (P : Nat) (hP : P < 2 ^ 32) :
    BME_MMHG_Q0_20 = 7865 ∧
    BME280_Pa_to_mmHg P =
      1000 * (P * 7865 / 2 ^ 28) + (P * 7865 / 2 ^ 15 % 8192) * 122070 / 1000000 ∧
    (P * 7865 / 2 ^ 15 % 8192) * 122070 / 1000000 ≤ 999 ∧
    P * 7865 < 2 ^ 64 ∧
    P * 7865 / 2 ^ 28 < 2 ^ 32 ∧
    P * 7865 / 2 ^ 28 * 1000 < 2 ^ 32 ∧
    (P * 7865 / 2 ^ 15 % 8192) * 122070 < 2 ^ 32 ∧
    P * 7865 / 2 ^ 28 * 1000 + (P * 7865 / 2 ^ 15 % 8192) * 122070 / 1000000 < 2 ^ 32 ∧
    P * 7865 % 2 ^ 32 * 2 ^ 4 % 2 ^ 32 / 2 ^ 19 = P * 7865 / 2 ^ 15 % 8192 ∧
    ∀ Q : Nat, P ≤ Q → Q < 2 ^ 32 → BME280_Pa_to_mmHg P ≤ BME280_Pa_to_mmHg Q := by
  norm_num at hP
  have hP' := Pa_to_mmHg_eq P hP
  have hfr := frac_bits (P * 7865)
  simp only [Nat.reducePow]
  refine ⟨rfl, hP'.1, hP'.2, by omega, by omega, by omega, by omega, by omega, hfr, ?_⟩
  intro Q hPQ hQ
  have hQ' := Pa_to_mmHg_eq Q hQ
  rw [hP'.1, hQ'.1]
  have hu : P * 7865 / 32768 ≤ Q * 7865 / 32768 :=
    Nat.div_le_div_right (Nat.mul_le_mul_right _ hPQ)
  have dP : P * 7865 / 268435456 = P * 7865 / 32768 / 8192 := by omega
  have dQ : Q * 7865 / 268435456 = Q * 7865 / 32768 / 8192 := by omega
  rw [dP, dQ]
  have tP := hP'.2
  have tQ := hQ'.2
  generalize P * 7865 / 32768 = u at hu tP ⊢
  generalize Q * 7865 / 32768 = v at hu tQ ⊢
  by_cases hq : u / 8192 = v / 8192
  · have hr : u % 8192 * 122070 ≤ v % 8192 * 122070 := by omega
    have := Nat.div_le_div_right (c := 1000000) hr
    omega
  · have : u / 8192 < v / 8192 := by omega
    omega

theorem BME280_Pa_to_mmHg_closed_form_witness :
    BME280_Pa_to_mmHg 24674867 ≤ BME280_Pa_to_mmHg 25468948 :=
  (BME280_Pa_to_mmHg_closed_form 24674867 (by decide)).2.2.2.2.2.2.2.2.2 25468948 (by decide)
    (by decide)

/-! ### Configuration setters -/

theorem ldiff_lt_256 (r M : Nat) (hr : r < 256) : Nat.ldiff r M < 256 := by
  have : Nat.ldiff r M < 2 ^ 8 := by
    apply Nat.lt_pow_two_of_testBit
    intro i hi
    have h8 : (2 : Nat) ^ 8 ≤ 2 ^ i := Nat.pow_le_pow_right (by norm_num) hi
    have hri : r.testBit i = false :=
      Nat.testBit_lt_two_pow (lt_of_lt_of_le (show r < 2 ^ 8 by omega) h8)
    rw [Nat.testBit_ldiff, hri]
    rfl
  omega

theorem andNot8_eq (r M : Nat) (hr : r < 256) : andNot8 r M = Nat.ldiff r M := by
  have h : Int.land (r : Int) (Int.not (M : Int)) = ((Nat.ldiff r M : Nat) : Int) := rfl
  unfold andNot8
  rw [h, Int.toNat_ofNat]
  exact Nat.mod_eq_of_lt (ldiff_lt_256 r M hr)

theorem rmw8_eq (r a M : Nat) (hr : r < 256) (ha : a < 256) :
    orAnd8 (andNot8 r M) a M = Nat.ldiff r M ||| (a &&& M) ∧
    Nat.ldiff r M ||| (a &&& M) < 256 := by
  have h1 := ldiff_lt_256 r M hr
  have h2 : a &&& M < 2 ^ 8 := lt_of_le_of_lt Nat.and_le_left (by omega)
  have h3 : Nat.ldiff r M ||| (a &&& M) < 2 ^ 8 := Nat.or_lt_two_pow (by omega) h2
  have h4 : Nat.ldiff r M ||| (a &&& M) < 256 := by omega
  refine ⟨?_, h4⟩
  unfold orAnd8
  rw [andNot8_eq r M hr]
  exact Nat.mod_eq_of_lt h4

theorem rmw_testBit (r a M i : Nat) :
    (Nat.ldiff r M ||| (a &&& M)).testBit i
      = if M.testBit i then a.testBit i else r.testBit i := by
  rw [Nat.testBit_or, Nat.testBit_ldiff, Nat.testBit_and]
  cases M.testBit i <;> cases a.testBit i <;> cases r.testBit i <;> rfl

theorem rmw_idem (r a M : Nat) :
    Nat.ldiff (Nat.ldiff r M ||| (a &&& M)) M ||| (a &&& M) = Nat.ldiff r M ||| (a &&& M) := by
  apply Nat.eq_of_testBit_eq
  intro i
  rw [rmw_testBit, rmw_testBit]
  split_ifs <;> rfl

theorem ReadReg_lt_256 {σ : Type} (bus : I2C σ) (b : σ) (reg : Nat) :
    (BME280_ReadReg bus b reg).1 < 256 := by
  simp [BME280_ReadReg, byteAt, storeBytes, List.range_succ]
  omega

/-- C19: each of `BME280_SetMode`, `BME280_SetFilter`, `BME280_SetStandby`,
`BME280_SetOSRST`, `BME280_SetOSRSP` reads one register and writes back
`(r AND NOT M) OR (a AND M)` to it; for every 8-bit `r` and `a` and every mask
`M` each bit of the written value is the bit of `a` inside `M` and the bit of
`r` outside it, and computing the value again from the written value gives the
same value. -/
theorem setters_read_modify_write {σ : Type} (C : CtrlHeader) (bus : I2C σ) (b : σ)
    (r a M : Nat) (hr : r ≤ 255) (ha : a ≤ 255) :
    (BME280_SetMode C bus b a =
      (bus.I2Cx_Write (BME280_ReadReg bus b C.BME280_REG_CTRL_MEAS).2
        [C.BME280_REG_CTRL_MEAS,
          Nat.ldiff (BME280_ReadReg bus b C.BME280_REG_CTRL_MEAS).1 C.BME280_MODE_MSK
            ||| (a &&& C.BME280_MODE_MSK)] I2C_STOP).2) ∧
    (BME280_SetFilter C bus b a =
      (bus.I2Cx_Write (BME280_ReadReg bus b C.BME280_REG_CONFIG).2
        [C.BME280_REG_CONFIG,
          Nat.ldiff (BME280_ReadReg bus b C.BME280_REG_CONFIG).1 C.BME280_FILTER_MSK
            ||| (a &&& C.BME280_FILTER_MSK)] I2C_STOP).2) ∧
    (BME280_SetStandby C bus b a =
      (bus.I2Cx_Write (BME280_ReadReg bus b C.BME280_REG_CONFIG).2
        [C.BME280_REG_CONFIG,
          Nat.ldiff (BME280_ReadReg bus b C.BME280_REG_CONFIG).1 C.BME280_STBY_MSK
            ||| (a &&& C.BME280_STBY_MSK)] I2C_STOP).2) ∧
    (BME280_SetOSRST C bus b a =
      (bus.I2Cx_Write (BME280_ReadReg bus b C.BME280_REG_CTRL_MEAS).2
        [C.BME280_REG_CTRL_MEAS,
          Nat.ldiff (BME280_ReadReg bus b C.BME280_REG_CTRL_MEAS).1 C.BME280_OSRS_T_MSK
            ||| (a &&& C.BME280_OSRS_T_MSK)] I2C_STOP).2) ∧
    (BME280_SetOSRSP C bus b a =
      (bus.I2Cx_Write (BME280_ReadReg bus b C.BME280_REG_CTRL_MEAS).2
        [C.BME280_REG_CTRL_MEAS,
          Nat.ldiff (BME280_ReadReg bus b C.BME280_REG_CTRL_MEAS).1 C.BME280_OSRS_P_MSK
            ||| (a &&& C.BME280_OSRS_P_MSK)] I2C_STOP).2) ∧
    orAnd8 (andNot8 r M) a M = Nat.ldiff r M ||| (a &&& M) ∧
    (∀ i : Nat, (orAnd8 (andNot8 r M) a M).testBit i
      = if M.testBit i then a.testBit i else r.testBit i) ∧
    orAnd8 (andNot8 (orAnd8 (andNot8 r M) a M) M) a M = orAnd8 (andNot8 r M) a M := by
  have hr' : r < 256 := by omega
  have ha' : a < 256 := by omega
  have hm := ReadReg_lt_256 bus b C.BME280_REG_CTRL_MEAS
  have hc := ReadReg_lt_256 bus b C.BME280_REG_CONFIG
  have v := rmw8_eq r a M hr' ha'
  refine ⟨?_, ?_, ?_, ?_, ?_, v.1, ?_, ?_⟩
  · simp only [BME280_SetMode, BME280_WriteReg, (rmw8_eq _ a C.BME280_MODE_MSK hm ha').1]
  · simp only [BME280_SetFilter, BME280_WriteReg, (rmw8_eq _ a C.BME280_FILTER_MSK hc ha').1]
  · simp only [BME280_SetStandby, BME280_WriteReg, (rmw8_eq _ a C.BME280_STBY_MSK hc ha').1]
  · simp only [BME280_SetOSRST, BME280_WriteReg, (rmw8_eq _ a C.BME280_OSRS_T_MSK hm ha').1]
  · simp only [BME280_SetOSRSP, BME280_WriteReg, (rmw8_eq _ a C.BME280_OSRS_P_MSK hm ha').1]
  · intro i
    rw [v.1]
    exact rmw_testBit r a M i
  · rw [v.1, (rmw8_eq _ a M v.2 ha').1]
    exact rmw_idem r a M

theorem setters_read_modify_write_witness :
    BME280_SetMode bme280Ctrl recordBus (0xA5, []) 0x03
      = (0xA5, [[0xF4], [0xF4, Nat.ldiff 0xA5 0x03 ||| (0x03 &&& 0x03)]]) ∧
    orAnd8 (andNot8 0xA5 0x03) 0x03 0x03 = Nat.ldiff 0xA5 0x03 ||| (0x03 &&& 0x03) :=
  ⟨(setters_read_modify_write bme280Ctrl recordBus (0xA5, []) 0xA5 0x03 0x03 (by decide)
      (by decide)).1,
   (setters_read_modify_write bme280Ctrl recordBus (0xA5, []) 0xA5 0x03 0x03 (by decide)
      (by decide)).2.2.2.2.2.1⟩

end BME280
